import Mathlib

/-!
# aerospike-mod-lua: value kernel, records, lists, results and the bytes bindings

A shallow embedding of `src/include/as_val.h`, `src/main/as_rec.c`,
`src/include/as_list.h`, `src/include/as_result.h` and `src/main/mod_lua_bytes.c`.

* Data pointers and function pointers are addresses (`Nat`), `0` being `NULL`.
* Memory maps an address to the object stored there.  A pointer to an
  `as_rec` or an `as_list` is also a pointer to the `as_val` it starts with.
* Code that the core reaches only through a function pointer (backend hooks)
  is given by an environment `Env`; every such call is logged in `State.calls`.
* Dereferencing `NULL`, dereferencing an address that holds no object of the
  expected type, and calling through a `NULL` function pointer are faults.
* A Lua binding takes the list of its arguments and gives the values it returns,
  the bytes object afterwards and the calls it made to the bytes library, which
  is a parameter; the byte order of the host is the parameter `little`.
-/

namespace ModLua

/-- Data pointer (`void *`, `as_val *`, `as_rec *`, ...); `0` is `NULL`. -/
abbrev Ptr := Nat

/-- Function pointer, the address of the code; `0` is `NULL`. -/
abbrev FnPtr := Nat

/-- The null pointer. -/
abbrev NULL : Nat := 0

/-- The enum `as_val_t` of as_val.h. -/
inductive as_val_t where
  | AS_UNKNOWN
  | AS_EMPTY
  | AS_BOOLEAN
  | AS_INTEGER
  | AS_STRING
  | AS_LIST
  | AS_MAP
  | AS_REC
  | AS_PAIR
deriving DecidableEq, Repr

open as_val_t

/-- The struct `as_val_s` of as_val.h, its five members in declaration order. -/
structure as_val where
  type : as_val_t
  size : Nat
  free : FnPtr
  hash : FnPtr
  tostring : FnPtr
deriving DecidableEq, Repr

/-- Modelled from the spec: `struct as_rec_s` of as_rec.h, which is not among the
sources.  The spec gives a Record as `{ base: Value(kind=Record), backing: opaque
owned handle, ops: RecordOps }`; as_rec.c names the members `_`, `source` and
`hooks`, and as_list.h declares the sibling `as_list_s` with `_` first. -/
structure as_rec where
  base : as_val
  source : Ptr
  hooks : Ptr
deriving DecidableEq, Repr

/-- Modelled from the spec: `struct as_rec_hooks_s` of as_rec.h, which is not among
the sources.  as_rec.c calls the entries `get`, `set` and `free`. -/
structure as_rec_hooks where
  get : FnPtr
  set : FnPtr
  free : FnPtr
deriving DecidableEq, Repr

/-- The struct `as_list_s` of as_list.h; `base` is the member `_`. -/
structure as_list where
  base : as_val
  source : Ptr
  hooks : Ptr
deriving DecidableEq, Repr

/-- The struct `as_list_hooks_s` of as_list.h. -/
structure as_list_hooks where
  free : FnPtr
  hash : FnPtr
  size : FnPtr
  append : FnPtr
  prepend : FnPtr
  get : FnPtr
  set : FnPtr
  head : FnPtr
  tail : FnPtr
  iterator : FnPtr
deriving DecidableEq, Repr

/-- What an address can hold. -/
inductive Obj where
  | val (v : as_val)
  | record (r : as_rec)
  | list (l : as_list)
  | rec_hooks (h : as_rec_hooks)
  | list_hooks (h : as_list_hooks)
deriving DecidableEq, Repr

/-- Memory: the object stored at each address, if any. -/
abbrev Mem := Ptr → Option Obj

/-- Memory holding nothing. -/
def Mem.empty : Mem := fun _ => none

/-- Store object `o` at address `p`. -/
def Mem.store (m : Mem) (p : Ptr) (o : Obj) : Mem :=
  fun q => if q = p then some o else m q

/-- Ways a C expression of the core can go wrong. -/
inductive Fault where
  | null_deref
  | bad_deref
  | null_call
deriving DecidableEq, Repr

/-- An argument handed to a function called through a pointer. -/
inductive Arg where
  | ptr (p : Ptr)
  | u32 (n : Nat)
  | str (s : String)
deriving DecidableEq, Repr

/-- The environment of the core: the allocator and the code behind function
pointers.  `int_fn`, `u32_fn` and `ptr_fn` run the code at an address for the
three return types the hook tables use (`int`, `uint32_t`, a pointer); a hook
may change memory and the backend state `σ`.  `addr_as_rec_freeval` is the
address of the static function `as_rec_freeval` of as_rec.c. -/
structure Env (σ : Type) where
  malloc : Mem → Ptr
  addr_as_rec_freeval : FnPtr
  int_fn : FnPtr → List Arg → Mem → σ → Int × Mem × σ
  u32_fn : FnPtr → List Arg → Mem → σ → Nat × Mem × σ
  ptr_fn : FnPtr → List Arg → Mem → σ → Ptr × Mem × σ

/-- Machine state: memory, backend state, and the calls made through hook
pointers so far, oldest first. -/
structure State (σ : Type) where
  mem : Mem
  ext : σ
  calls : List (FnPtr × List Arg)

/-- Call the backend code at `f` for an `int` result. -/
def call_int {σ : Type} (env : Env σ) (f : FnPtr) (args : List Arg) (s : State σ) :
    Except Fault (Int × State σ) :=
  if f = 0 then .error .null_call
  else
    let out := env.int_fn f args s.mem s.ext
    .ok (out.1, { mem := out.2.1, ext := out.2.2, calls := s.calls ++ [(f, args)] })

/-- Call the backend code at `f` for a `uint32_t` result. -/
def call_u32 {σ : Type} (env : Env σ) (f : FnPtr) (args : List Arg) (s : State σ) :
    Except Fault (Nat × State σ) :=
  if f = 0 then .error .null_call
  else
    let out := env.u32_fn f args s.mem s.ext
    .ok (out.1, { mem := out.2.1, ext := out.2.2, calls := s.calls ++ [(f, args)] })

/-- Call the backend code at `f` for a pointer result. -/
def call_ptr {σ : Type} (env : Env σ) (f : FnPtr) (args : List Arg) (s : State σ) :
    Except Fault (Ptr × State σ) :=
  if f = 0 then .error .null_call
  else
    let out := env.ptr_fn f args s.mem s.ext
    .ok (out.1, { mem := out.2.1, ext := out.2.2, calls := s.calls ++ [(f, args)] })

/-- Read `*(as_val *) p`.  A record and a list start with their `as_val`. -/
def load_val (m : Mem) (p : Ptr) : Except Fault as_val :=
  if p = 0 then .error .null_deref
  else
    match m p with
    | some (.val v) => .ok v
    | some (.record r) => .ok r.base
    | some (.list l) => .ok l.base
    | _ => .error .bad_deref

/-- Read `*(as_rec *) p`. -/
def load_rec (m : Mem) (p : Ptr) : Except Fault as_rec :=
  if p = 0 then .error .null_deref
  else
    match m p with
    | some (.record r) => .ok r
    | _ => .error .bad_deref

/-- Read `*(const as_rec_hooks *) p`. -/
def load_rec_hooks (m : Mem) (p : Ptr) : Except Fault as_rec_hooks :=
  if p = 0 then .error .null_deref
  else
    match m p with
    | some (.rec_hooks h) => .ok h
    | _ => .error .bad_deref

/-- Read `*(as_list *) p`. -/
def load_list (m : Mem) (p : Ptr) : Except Fault as_list :=
  if p = 0 then .error .null_deref
  else
    match m p with
    | some (.list l) => .ok l
    | _ => .error .bad_deref

/-- Read `*(const as_list_hooks *) p`. -/
def load_list_hooks (m : Mem) (p : Ptr) : Except Fault as_list_hooks :=
  if p = 0 then .error .null_deref
  else
    match m p with
    | some (.list_hooks h) => .ok h
    | _ => .error .bad_deref

/-! ## as_val.h -/

/-- The macro `as_val_type(v)`:
`(v && ((as_val *)v)->free ? ((as_val *)v)->type : AS_UNKNOWN)`. -/
def as_val_type (m : Mem) (v : Ptr) : Except Fault as_val_t :=
  if v = 0 then .ok AS_UNKNOWN
  else
    match load_val m v with
    | .error e => .error e
    | .ok x => if x.free ≠ 0 then .ok x.type else .ok AS_UNKNOWN

/-- The macro `as_val_size(v)`: `(v ? ((as_val *)v)->size : sizeof(as_val))`.
The footprint `sizeof(as_val)` depends on the platform and is a parameter. -/
def as_val_size (sizeof_as_val : Nat) (m : Mem) (v : Ptr) : Except Fault Nat :=
  if v = 0 then .ok sizeof_as_val
  else
    match load_val m v with
    | .error e => .error e
    | .ok x => .ok x.size

/-- The macro `as_val_hash(v)`:
`(v && ((as_val *)v)->hash ? ((as_val *)v)->hash((as_val *)v) : 0)`. -/
def as_val_hash {σ : Type} (env : Env σ) (v : Ptr) (s : State σ) :
    Except Fault (Nat × State σ) :=
  if v = 0 then .ok (0, s)
  else
    match load_val s.mem v with
    | .error e => .error e
    | .ok x => if x.hash ≠ 0 then call_u32 env x.hash [.ptr v] s else .ok (0, s)

/-- The macro `as_val_tostring(v)`:
`(v && ((as_val *)v)->tostring ? ((as_val *)v)->tostring((as_val *)v) : NULL)`. -/
def as_val_tostring {σ : Type} (env : Env σ) (v : Ptr) (s : State σ) :
    Except Fault (Ptr × State σ) :=
  if v = 0 then .ok (NULL, s)
  else
    match load_val s.mem v with
    | .error e => .error e
    | .ok x => if x.tostring ≠ 0 then call_ptr env x.tostring [.ptr v] s else .ok (NULL, s)

/-! ## as_rec.c -/

/-- The descriptor `static const as_val AS_RECORD_VAL = {AS_REC, as_rec_freeval};`.
The two initialisers go to the first two members of `as_val`, `type` and `size`;
the members without an initialiser (`free`, `hash`, `tostring`) are zero. -/
def AS_RECORD_VAL {σ : Type} (env : Env σ) : as_val :=
  { type := AS_REC, size := env.addr_as_rec_freeval, free := NULL, hash := NULL,
    tostring := NULL }

/-- The function `as_rec_create(source, hooks)`: allocate, then write the three members. -/
def as_rec_create {σ : Type} (env : Env σ) (source hooks : Ptr) (s : State σ) :
    Except Fault (Ptr × State σ) :=
  let r := env.malloc s.mem
  if r = 0 then .error .null_deref
  else
    let x : as_rec := { base := AS_RECORD_VAL env, source := source, hooks := hooks }
    .ok (r, { mem := s.mem.store r (.record x), ext := s.ext, calls := s.calls })

/-- The function `as_rec_get(r, name)`: `return r->hooks->get(r,name);`. -/
def as_rec_get {σ : Type} (env : Env σ) (r : Ptr) (name : String) (s : State σ) :
    Except Fault (Ptr × State σ) :=
  match load_rec s.mem r with
  | .error e => .error e
  | .ok x =>
    match load_rec_hooks s.mem x.hooks with
    | .error e => .error e
    | .ok h => call_ptr env h.get [.ptr r, .str name] s

/-- The function `as_rec_set(r, name, value)`: `return r->hooks->set(r,name,value);`. -/
def as_rec_set {σ : Type} (env : Env σ) (r : Ptr) (name : String) (value : Ptr)
    (s : State σ) : Except Fault (Int × State σ) :=
  match load_rec s.mem r with
  | .error e => .error e
  | .ok x =>
    match load_rec_hooks s.mem x.hooks with
    | .error e => .error e
    | .ok h => call_int env h.set [.ptr r, .str name, .ptr value] s

/-- The function `as_rec_free(r)`: `return r->hooks->free(r);`. -/
def as_rec_free {σ : Type} (env : Env σ) (r : Ptr) (s : State σ) :
    Except Fault (Int × State σ) :=
  match load_rec s.mem r with
  | .error e => .error e
  | .ok x =>
    match load_rec_hooks s.mem x.hooks with
    | .error e => .error e
    | .ok h => call_int env h.free [.ptr r] s

/-- The function `as_rec_toval(r)`: `(as_val *) &(r->_)`, the address of the first member. -/
def as_rec_toval (r : Ptr) : Ptr := r

/-- The function `as_rec_fromval(v)`:
`as_val_type(v) == AS_REC ? (as_rec *) v : NULL`. -/
def as_rec_fromval (m : Mem) (v : Ptr) : Except Fault Ptr :=
  match as_val_type m v with
  | .error e => .error e
  | .ok t => if t = AS_REC then .ok v else .ok NULL

/-- The static function `as_rec_freeval(v)`:
`as_val_type(v) == AS_REC ? as_rec_free((as_rec *) v) : 1`. -/
def as_rec_freeval {σ : Type} (env : Env σ) (v : Ptr) (s : State σ) :
    Except Fault (Int × State σ) :=
  match as_val_type s.mem v with
  | .error e => .error e
  | .ok t => if t = AS_REC then as_rec_free env v s else .ok (1, s)

/-! ## as_val.h, the destroy operation -/

/-- Run the code at `f` as the `free` member of an `as_val` on the handle `v`:
`as_rec_freeval` when `f` is its address, backend code otherwise. -/
def call_val_free {σ : Type} (env : Env σ) (f : FnPtr) (v : Ptr) (s : State σ) :
    Except Fault (Int × State σ) :=
  if f ≠ 0 ∧ f = env.addr_as_rec_freeval then as_rec_freeval env v s
  else call_int env f [.ptr v] s

/-- The macro `as_val_free(v)` of as_val.h:
`(v && ((as_val *)v)->free ? ((as_val *)v)->free((as_val *)v) : 1)`. -/
def as_val_free {σ : Type} (env : Env σ) (v : Ptr) (s : State σ) :
    Except Fault (Int × State σ) :=
  if v = 0 then .ok (1, s)
  else
    match load_val s.mem v with
    | .error e => .error e
    | .ok x =>
      if x.free ≠ 0 then call_val_free env x.free v s else .ok (1, s)

/-! ## as_list.h -/

/-- Modelled from the spec: the macro `as_util_hook(hook, default, object, ...)` of
as_util.h, which is not among the sources.  The spec has a list operation "routed
through `ops`" and an absent hook "signaled via documented neutral return, not a
failure state" by "null-tolerant macros": for a null object, a null hook table or
a null entry the result is `default`, otherwise the entry is called on the object
followed by the remaining arguments. -/
def as_util_hook {σ ρ : Type}
    (call : FnPtr → List Arg → State σ → Except Fault (ρ × State σ))
    (hook : as_list_hooks → FnPtr) (dflt : ρ) (l : Ptr) (args : List Arg)
    (s : State σ) : Except Fault (ρ × State σ) :=
  if l = 0 then .ok (dflt, s)
  else
    match load_list s.mem l with
    | .error e => .error e
    | .ok x =>
      if x.hooks = 0 then .ok (dflt, s)
      else
        match load_list_hooks s.mem x.hooks with
        | .error e => .error e
        | .ok h => if hook h = 0 then .ok (dflt, s) else call (hook h) (.ptr l :: args) s

/-- The function `as_list_free(l)`: `as_util_hook(free, 1, l)`. -/
def as_list_free {σ : Type} (env : Env σ) (l : Ptr) (s : State σ) :
    Except Fault (Int × State σ) :=
  as_util_hook (call_int env) as_list_hooks.free 1 l [] s

/-- The function `as_list_hash(l)`: `as_util_hook(hash, 0, l)`. -/
def as_list_hash {σ : Type} (env : Env σ) (l : Ptr) (s : State σ) :
    Except Fault (Nat × State σ) :=
  as_util_hook (call_u32 env) as_list_hooks.hash 0 l [] s

/-- The function `as_list_size(l)`: `as_util_hook(size, 0, l)`. -/
def as_list_size {σ : Type} (env : Env σ) (l : Ptr) (s : State σ) :
    Except Fault (Nat × State σ) :=
  as_util_hook (call_u32 env) as_list_hooks.size 0 l [] s

/-- The function `as_list_append(l, v)`: `as_util_hook(append, 1, l, v)`. -/
def as_list_append {σ : Type} (env : Env σ) (l v : Ptr) (s : State σ) :
    Except Fault (Int × State σ) :=
  as_util_hook (call_int env) as_list_hooks.append 1 l [.ptr v] s

/-- The function `as_list_prepend(l, v)`: `as_util_hook(prepend, 1, l, v)`. -/
def as_list_prepend {σ : Type} (env : Env σ) (l v : Ptr) (s : State σ) :
    Except Fault (Int × State σ) :=
  as_util_hook (call_int env) as_list_hooks.prepend 1 l [.ptr v] s

/-- The function `as_list_get(l, i)`: `as_util_hook(get, NULL, l, i)`. -/
def as_list_get {σ : Type} (env : Env σ) (l : Ptr) (i : Nat) (s : State σ) :
    Except Fault (Ptr × State σ) :=
  as_util_hook (call_ptr env) as_list_hooks.get NULL l [.u32 i] s

/-- The function `as_list_set(l, i, v)`: `as_util_hook(set, 1, l, i, v)`. -/
def as_list_set {σ : Type} (env : Env σ) (l : Ptr) (i : Nat) (v : Ptr) (s : State σ) :
    Except Fault (Int × State σ) :=
  as_util_hook (call_int env) as_list_hooks.set 1 l [.u32 i, .ptr v] s

/-- The function `as_list_head(l)`: `as_util_hook(head, NULL, l)`. -/
def as_list_head {σ : Type} (env : Env σ) (l : Ptr) (s : State σ) :
    Except Fault (Ptr × State σ) :=
  as_util_hook (call_ptr env) as_list_hooks.head NULL l [] s

/-- The function `as_list_tail(l)`: `as_util_hook(tail, NULL, l)`. -/
def as_list_tail {σ : Type} (env : Env σ) (l : Ptr) (s : State σ) :
    Except Fault (Ptr × State σ) :=
  as_util_hook (call_ptr env) as_list_hooks.tail NULL l [] s

/-- The function `as_list_iterator(l)`: `as_util_hook(iterator, NULL, l)`. -/
def as_list_iterator {σ : Type} (env : Env σ) (l : Ptr) (s : State σ) :
    Except Fault (Ptr × State σ) :=
  as_util_hook (call_ptr env) as_list_hooks.iterator NULL l [] s

/-- Subtraction of `uint32_t` values, as in `as_list_size(L) - 1`. -/
def u32_sub (a b : Nat) : Nat := (a + 2 ^ 32 - b % 2 ^ 32) % 2 ^ 32

/-! ## Backend contracts used to state the container properties -/

/-- A record backend that stores bins as a name-to-value map: `bins e r` is the map
of record `r` in backend state `e`; the code at `getf` reads it and changes
nothing; the code at `setf` binds the name to the value, leaves the other names
alone and keeps the record and its hook table in memory. -/
structure MapBackend {σ : Type} (env : Env σ) (getf setf : FnPtr)
    (bins : σ → Ptr → String → Ptr) : Prop where
  get_result : ∀ m e r n, (env.ptr_fn getf [.ptr r, .str n] m e).1 = bins e r n
  get_keeps : ∀ m e r n, (env.ptr_fn getf [.ptr r, .str n] m e).2 = (m, e)
  set_bins : ∀ m e r n v k,
    bins (env.int_fn setf [.ptr r, .str n, .ptr v] m e).2.2 r k
      = if k = n then v else bins e r k
  set_keeps : ∀ m e r n v x, load_rec m r = .ok x →
    load_rec (env.int_fn setf [.ptr r, .str n, .ptr v] m e).2.1 r = .ok x ∧
    load_rec_hooks (env.int_fn setf [.ptr r, .str n, .ptr v] m e).2.1 x.hooks
      = load_rec_hooks m x.hooks

/-- A list backend that stores the elements as a growable sequence: `elems e l` is
the sequence of list `l` in backend state `e`; the code at `sizef` returns its
length and the code at `getf` the element at an index (`NULL` out of range),
both changing nothing; the code at `appendf` puts a non-null value at the end
and keeps the list and its hook table in memory. -/
structure SeqBackend {σ : Type} (env : Env σ) (sizef appendf getf : FnPtr)
    (elems : σ → Ptr → List Ptr) : Prop where
  size_result : ∀ m e l, (env.u32_fn sizef [.ptr l] m e).1 = (elems e l).length % 2 ^ 32
  size_keeps : ∀ m e l, (env.u32_fn sizef [.ptr l] m e).2 = (m, e)
  get_result : ∀ m e l i, (env.ptr_fn getf [.ptr l, .u32 i] m e).1 = (elems e l).getD i NULL
  get_keeps : ∀ m e l i, (env.ptr_fn getf [.ptr l, .u32 i] m e).2 = (m, e)
  append_elems : ∀ m e l v, v ≠ NULL →
    elems (env.int_fn appendf [.ptr l, .ptr v] m e).2.2 l = elems e l ++ [v]
  append_keeps : ∀ m e l v x, load_list m l = .ok x →
    load_list (env.int_fn appendf [.ptr l, .ptr v] m e).2.1 l = .ok x ∧
    load_list_hooks (env.int_fn appendf [.ptr l, .ptr v] m e).2.1 x.hooks
      = load_list_hooks m x.hooks

/-- The hook selected by `hook` is unavailable on the list handle `l`: the handle is
null, or its hook table is null, or the entry is null. -/
def hook_absent (hook : as_list_hooks → FnPtr) (m : Mem) (l : Ptr) : Prop :=
  l = NULL ∨ ∃ x, load_list m l = .ok x ∧
    (x.hooks = NULL ∨ ∃ h, load_list_hooks m x.hooks = .ok h ∧ hook h = NULL)

/-- The hook selected by `hook` is installed on the list handle `l` and is `f`. -/
def hook_installed (hook : as_list_hooks → FnPtr) (m : Mem) (l : Ptr) (f : FnPtr) : Prop :=
  l ≠ NULL ∧ f ≠ NULL ∧ ∃ x h, load_list m l = .ok x ∧ x.hooks ≠ NULL ∧
    load_list_hooks m x.hooks = .ok h ∧ hook h = f

/-! ## A concrete world for evaluating the definitions -/

/-- Backend state of the concrete world: the bins of its record backend and the
elements of its list backend. -/
structure Backing where
  bins : List (String × Ptr)
  elems : List Ptr
deriving DecidableEq, Repr

/-- Look a bin up by name, `NULL` when there is none. -/
def Backing.bin (e : Backing) (n : String) : Ptr :=
  match e.bins.find? (fun b => b.1 == n) with
  | some b => b.2
  | none => NULL

/-- The concrete environment.  Code addresses: 101 record get, 102 record set,
103 record free (returns 7), 201 list size, 202 list append, 203 list get,
301 value free (returns 5), 302 value hash (returns 99), 303 value tostring
(returns the address 640); `as_rec_freeval` sits at 4096 and `malloc` returns 48. -/
def demoEnv : Env Backing where
  malloc := fun _ => 48
  addr_as_rec_freeval := 4096
  int_fn := fun f args m e =>
    match f, args with
    | 102, [.ptr _, .str n, .ptr v] => (0, m, { bins := (n, v) :: e.bins, elems := e.elems })
    | 103, _ => (7, m, e)
    | 202, [.ptr _, .ptr v] =>
      if v = 0 then (1, m, e) else (0, m, { bins := e.bins, elems := e.elems ++ [v] })
    | 301, _ => (5, m, e)
    | _, _ => (0, m, e)
  u32_fn := fun f _ m e =>
    match f with
    | 201 => (e.elems.length % 2 ^ 32, m, e)
    | 302 => (99, m, e)
    | _ => (0, m, e)
  ptr_fn := fun f args m e =>
    match f, args with
    | 101, [.ptr _, .str n] => (e.bin n, m, e)
    | 203, [.ptr _, .u32 i] => (e.elems.getD i NULL, m, e)
    | 303, _ => (640, m, e)
    | _, _ => (NULL, m, e)

/-- A value with no hook installed, tagged `AS_INTEGER`. -/
def bareVal : as_val :=
  { type := AS_INTEGER, size := 8, free := NULL, hash := NULL, tostring := NULL }

/-- A value with the three hooks installed, tagged `AS_STRING`. -/
def fullVal : as_val :=
  { type := AS_STRING, size := 24, free := 301, hash := 302, tostring := 303 }

/-- A record header tagged `AS_REC` whose `free` member holds `as_rec_freeval`. -/
def recVal : as_val :=
  { type := AS_REC, size := 40, free := 4096, hash := NULL, tostring := NULL }

/-- A list header whose `as_val` has no hook. -/
def listBase : as_val :=
  { type := AS_LIST, size := 56, free := NULL, hash := NULL, tostring := NULL }

/-- A list hook table with `size`, `append` and `get` installed. -/
def seqHooks : as_list_hooks where
  free := NULL
  hash := NULL
  size := 201
  append := 202
  prepend := NULL
  get := 203
  set := NULL
  head := NULL
  tail := NULL
  iterator := NULL

/-- A list hook table with every entry null. -/
def noHooks : as_list_hooks where
  free := NULL
  hash := NULL
  size := NULL
  append := NULL
  prepend := NULL
  get := NULL
  set := NULL
  head := NULL
  tail := NULL
  iterator := NULL

/-- The memory of the concrete world: a bare value at 16, a value with hooks at 24,
the record hook table at 32, the list hook table at 40, a list over it at 56, a
hook table with every entry null at 64, a list over that at 72, a record at 80 over
the record hook table with every entry null at 88. -/
def demoMem : Mem := fun p =>
  match p with
  | 16 => some (.val bareVal)
  | 24 => some (.val fullVal)
  | 32 => some (.rec_hooks { get := 101, set := 102, free := 103 })
  | 40 => some (.list_hooks seqHooks)
  | 56 => some (.list { base := listBase, source := 0, hooks := 40 })
  | 64 => some (.list_hooks noHooks)
  | 72 => some (.list { base := listBase, source := 0, hooks := 64 })
  | 80 => some (.record { base := recVal, source := 0, hooks := 88 })
  | 88 => some (.rec_hooks { get := NULL, set := NULL, free := NULL })
  | _ => none

/-- The state of the concrete world: no bins, no elements, no call made. -/
def demoState : State Backing :=
  { mem := demoMem, ext := { bins := [], elems := [] }, calls := [] }

/-- The concrete world after `as_rec_create(0, 32)`: the new record is at 48. -/
def demoRecState : State Backing :=
  { mem := demoMem.store 48
      (.record { base := AS_RECORD_VAL demoEnv, source := 0, hooks := 32 }),
    ext := { bins := [], elems := [] }, calls := [] }

/-- The concrete world after `as_rec_create(0, NULL)`: the new record is at 48 and
has no hook table. -/
def demoBareRecState : State Backing :=
  { mem := demoMem.store 48
      (.record { base := AS_RECORD_VAL demoEnv, source := 0, hooks := NULL }),
    ext := { bins := [], elems := [] }, calls := [] }

/-! ## as_result.h -/

/-- The struct `as_result_s` of as_result.h. -/
structure as_result where
  is_success : Bool
  value : Ptr
deriving DecidableEq, Repr

/-- Modelled from the spec: `as_result_tosuccess(r, v)`, declared in as_result.h; its body
(as_result.c) is not among the sources.  The spec: "`to_success(r, v)` /
`to_failure(r, v)` → mutate `r`'s state and carried value, releasing any value `r`
previously owned", and "conversion must release any previously owned value before
taking ownership of the new one".  Releasing is the destroy operation of the
value kernel, `as_val_free`.  The result object `*r` is passed and returned by
value. -/
def as_result_tosuccess {σ : Type} (env : Env σ) (r : as_result) (v : Ptr) (s : State σ) :
    Except Fault (Int × as_result × State σ) :=
  match as_val_free env r.value s with
  | .error e => .error e
  | .ok (_, s1) => .ok (0, { is_success := true, value := v }, s1)

/-- Modelled from the spec: `as_result_tofailure(r, v)`, declared in as_result.h; its body
(as_result.c) is not among the sources.  It is the mirror image of
`as_result_tosuccess`: release the value carried so far, then carry `v` in the
failure state. -/
def as_result_tofailure {σ : Type} (env : Env σ) (r : as_result) (v : Ptr) (s : State σ) :
    Except Fault (Int × as_result × State σ) :=
  match as_val_free env r.value s with
  | .error e => .error e
  | .ok (_, s1) => .ok (0, { is_success := false, value := v }, s1)

/-- The number of logged hook calls made on the handle `v` alone. -/
def calls_on (v : Ptr) (calls : List (FnPtr × List Arg)) : Nat :=
  calls.countP (fun c => c.2 == [Arg.ptr v])

/-! ## Byte order and integer conversions of C -/

/-- The `n` bytes of `x`, least significant first. -/
def bytes_le : Nat → Nat → List Nat
  | 0, _ => []
  | n + 1, x => x % 256 :: bytes_le n (x / 256)

/-- The number whose bytes, most significant first, are `l`. -/
def of_be (l : List Nat) : Nat := l.foldl (fun acc b => acc * 256 + b) 0

/-- Reverse the order of the `n` bytes of `x`. -/
def bswap (n x : Nat) : Nat := of_be (bytes_le n x)

/-- Conversion of an integer to the unsigned type of `w` bits. -/
def to_unsigned (w : Nat) (x : Int) : Nat := (x % 2 ^ w).toNat

/-- Conversion of an unsigned value to the signed type of `w` bits (two's complement). -/
def to_signed (w : Nat) (x : Nat) : Int :=
  if x % 2 ^ w < 2 ^ (w - 1) then ((x % 2 ^ w : Nat) : Int)
  else ((x % 2 ^ w : Nat) : Int) - 2 ^ w

/-- The function `htons` of arpa/inet.h on a `uint16_t`: host to network (big-endian)
order; `little` says that the host is little-endian. -/
def htons (little : Bool) (x : Nat) : Nat :=
  if little then bswap 2 (x % 2 ^ 16) else x % 2 ^ 16

/-- The function `ntohs` of arpa/inet.h on a `uint16_t`: network to host order. -/
def ntohs (little : Bool) (x : Nat) : Nat :=
  if little then bswap 2 (x % 2 ^ 16) else x % 2 ^ 16

/-- The function `htonl` of arpa/inet.h on a `uint32_t`. -/
def htonl (little : Bool) (x : Nat) : Nat :=
  if little then bswap 4 (x % 2 ^ 32) else x % 2 ^ 32

/-- The function `ntohl` of arpa/inet.h on a `uint32_t`. -/
def ntohl (little : Bool) (x : Nat) : Nat :=
  if little then bswap 4 (x % 2 ^ 32) else x % 2 ^ 32

/-- The function `be64toh` of endian.h on a `uint64_t`: big-endian to host order. -/
def be64toh (little : Bool) (x : Nat) : Nat :=
  if little then bswap 8 (x % 2 ^ 64) else x % 2 ^ 64

/-- The limit `UINT8_MAX`. -/
def UINT8_MAX : Int := 255

/-- The limit `UINT32_MAX`. -/
def UINT32_MAX : Int := 4294967295

/-- The limit `INT16_MIN`. -/
def INT16_MIN : Int := -32768

/-- The limit `INT16_MAX`. -/
def INT16_MAX : Int := 32767

/-- The limit `INT32_MIN`. -/
def INT32_MIN : Int := -2147483648

/-- The limit `INT32_MAX`. -/
def INT32_MAX : Int := 2147483647

/-- The limit `INT64_MIN`. -/
def INT64_MIN : Int := -9223372036854775808

/-- The limit `INT64_MAX`. -/
def INT64_MAX : Int := 9223372036854775807

/-! ## mod_lua_bytes.c: the Lua side and the bytes library -/

/-- A Lua value as the bindings see it.  Numbers are `lua_Integer` values, 64 bits wide
as the comparisons against `UINT32_MAX` and `INT64_MIN` presuppose; `bytes b` is
a box of class Bytes holding the `as_bytes *` `b`, `none` being `NULL`. -/
inductive LuaVal (β : Type) where
  | nil
  | boolean (b : Bool)
  | integer (n : Int)
  | str (s : String)
  | bytes (b : Option β)
deriving DecidableEq, Repr

/-- A Lua error raised by an argument check: the argument at `index` is of the wrong kind. -/
inductive LuaError where
  | bad_argument (index : Nat)
deriving DecidableEq, Repr

/-- A call of the bytes library made by a binding, with the arguments handed over. -/
inductive BytesCall where
  | get_type
  | ensure (capacity : Nat) (resize : Bool)
  | append_byte (v : Nat)
  | append_int16 (v : Int)
  | append_int32 (v : Int)
  | append_int64 (v : Int)
  | set_byte (pos v : Nat)
  | set_int16 (pos : Nat) (v : Int)
  | set_int32 (pos : Nat) (v : Int)
  | set_int64 (pos : Nat) (v : Int)
  | get_byte (pos : Nat)
  | get_int16 (pos : Nat)
  | get_int32 (pos : Nat)
  | get_int64 (pos : Nat)
deriving DecidableEq, Repr

/-- The bytes library (as_bytes.h of aerospike-common, outside this repository), taken
as a parameter over the state `β` of an `as_bytes` object.  A mutator returns its
`bool` result and the object afterwards; a getter returns its `uint32_t` result
(0 on failure) and the value left in `*val`. -/
structure BytesLib (β : Type) where
  size : β → Nat
  as_bytes_get_type : β → Int
  as_bytes_ensure : β → Nat → Bool → Bool × β
  as_bytes_append_byte : β → Nat → Bool × β
  as_bytes_append_int16 : β → Int → Bool × β
  as_bytes_append_int32 : β → Int → Bool × β
  as_bytes_append_int64 : β → Int → Bool × β
  as_bytes_set_byte : β → Nat → Nat → Bool × β
  as_bytes_set_int16 : β → Nat → Int → Bool × β
  as_bytes_set_int32 : β → Nat → Int → Bool × β
  as_bytes_set_int64 : β → Nat → Int → Bool × β
  as_bytes_get_byte : β → Nat → Nat × Nat
  as_bytes_get_int16 : β → Nat → Nat × Int
  as_bytes_get_int32 : β → Nat → Nat × Int
  as_bytes_get_int64 : β → Nat → Nat × Int

/-- What a binding leaves behind: the values it returns to Lua (`return 0` gives none),
the object boxed in the first argument afterwards, and the library calls it made,
oldest first. -/
structure Ret (β : Type) where
  results : List (LuaVal β)
  obj : Option β
  log : List BytesCall

/-- The object boxed in the first argument, if the first argument is a box. -/
def arg_obj {β : Type} (args : List (LuaVal β)) : Option β :=
  match args.head? with
  | some (.bytes b) => b
  | _ => none

/-- The function `luaL_optinteger(l, n, d)` of the Lua auxiliary library: `d` when
argument `n` is absent or nil, the number when it is one, an error otherwise. -/
def luaL_optinteger {β : Type} (args : List (LuaVal β)) (n : Nat) (d : Int) :
    Except LuaError Int :=
  match args.get? (n - 1) with
  | none => .ok d
  | some .nil => .ok d
  | some (.integer k) => .ok k
  | some _ => .error (.bad_argument n)

/-- Modelled from the spec: `mod_lua_checkbox(l, index, "Bytes")`, which is not among
the sources; the spec leaves the scripting adapter to its interface.  By its use
here it yields the box of class Bytes at the index, represented by the
`as_bytes *` it holds, and raises a Lua error for any other argument. -/
def mod_lua_checkbox {β : Type} (args : List (LuaVal β)) (index : Nat) :
    Except LuaError (Option β) :=
  match args.get? (index - 1) with
  | some (.bytes b) => .ok b
  | _ => .error (.bad_argument index)

/-- Modelled from the spec: `mod_lua_box_value(box)`, which is not among the sources:
the pointer the box holds, possibly `NULL`. -/
def mod_lua_box_value {β : Type} (box : Option β) : Option β := box

/-- The function `mod_lua_checkbytes(l, index)`: the value of the checked box. -/
def mod_lua_checkbytes {β : Type} (args : List (LuaVal β)) (index : Nat) :
    Except LuaError (Option β) :=
  match mod_lua_checkbox args index with
  | .error e => .error e
  | .ok box => .ok (mod_lua_box_value box)

/-! ## mod_lua_bytes.c: the bindings -/

/-- The function `mod_lua_bytes_get_type`. -/
def mod_lua_bytes_get_type {β : Type} (lib : BytesLib β) (args : List (LuaVal β)) :
    Except LuaError (Ret β) :=
  if args.length ≥ 1 then .ok { results := [], obj := arg_obj args, log := [] }
  else do
    let b ← mod_lua_checkbytes args 1
    match b with
    | none => .ok { results := [], obj := none, log := [] }
    | some b =>
      .ok { results := [.integer (lib.as_bytes_get_type b)], obj := some b, log := [.get_type] }

/-- The function `mod_lua_bytes_append_byte`. -/
def mod_lua_bytes_append_byte {β : Type} (lib : BytesLib β) (little : Bool)
    (args : List (LuaVal β)) : Except LuaError (Ret β) :=
  if args.length ≠ 2 then .ok { results := [.boolean false], obj := arg_obj args, log := [] }
  else do
    let b ← mod_lua_checkbytes args 1
    let v ← luaL_optinteger args 2 0
    match b with
    | none => .ok { results := [.boolean false], obj := none, log := [] }
    | some b =>
      if v < 0 ∨ v > UINT8_MAX then
        .ok { results := [.boolean false], obj := some b, log := [] }
      else
        let pos := lib.size b % 2 ^ 32
        let size := 1
        let e := lib.as_bytes_ensure b ((pos + size) % 2 ^ 32) true
        if e.1 = true then
          let val := htons little (to_unsigned 8 v) % 2 ^ 8
          let w := lib.as_bytes_append_byte e.2 val
          .ok { results := [.boolean w.1], obj := some w.2,
                log := [.ensure ((pos + size) % 2 ^ 32) true, .append_byte val] }
        else
          .ok { results := [.boolean false], obj := some e.2,
                log := [.ensure ((pos + size) % 2 ^ 32) true] }

/-- The function `mod_lua_bytes_append_int16`. -/
def mod_lua_bytes_append_int16 {β : Type} (lib : BytesLib β) (little : Bool)
    (args : List (LuaVal β)) : Except LuaError (Ret β) :=
  if args.length ≠ 2 then .ok { results := [.boolean false], obj := arg_obj args, log := [] }
  else do
    let b ← mod_lua_checkbytes args 1
    let v ← luaL_optinteger args 2 0
    match b with
    | none => .ok { results := [.boolean false], obj := none, log := [] }
    | some b =>
      if v < INT16_MIN ∨ v > INT16_MAX then
        .ok { results := [.boolean false], obj := some b, log := [] }
      else
        let pos := lib.size b % 2 ^ 32
        let size := 2
        let e := lib.as_bytes_ensure b ((pos + size) % 2 ^ 32) true
        if e.1 = true then
          let val := to_signed 16 (htons little (to_unsigned 16 v))
          let w := lib.as_bytes_append_int16 e.2 val
          .ok { results := [.boolean w.1], obj := some w.2,
                log := [.ensure ((pos + size) % 2 ^ 32) true, .append_int16 val] }
        else
          .ok { results := [.boolean false], obj := some e.2,
                log := [.ensure ((pos + size) % 2 ^ 32) true] }

/-- The function `mod_lua_bytes_append_int32`. -/
def mod_lua_bytes_append_int32 {β : Type} (lib : BytesLib β) (little : Bool)
    (args : List (LuaVal β)) : Except LuaError (Ret β) :=
  if args.length ≠ 2 then .ok { results := [.boolean false], obj := arg_obj args, log := [] }
  else do
    let b ← mod_lua_checkbytes args 1
    let v ← luaL_optinteger args 2 0
    match b with
    | none => .ok { results := [.boolean false], obj := none, log := [] }
    | some b =>
      if v < INT32_MIN ∨ v > INT32_MAX then
        .ok { results := [.boolean false], obj := some b, log := [] }
      else
        let pos := lib.size b % 2 ^ 32
        let size := 4
        let e := lib.as_bytes_ensure b ((pos + size) % 2 ^ 32) true
        if e.1 = true then
          let val := to_signed 32 (htonl little (to_unsigned 32 v))
          let w := lib.as_bytes_append_int32 e.2 val
          .ok { results := [.boolean w.1], obj := some w.2,
                log := [.ensure ((pos + size) % 2 ^ 32) true, .append_int32 val] }
        else
          .ok { results := [.boolean false], obj := some e.2,
                log := [.ensure ((pos + size) % 2 ^ 32) true] }

/-- The function `mod_lua_bytes_append_int64`. -/
def mod_lua_bytes_append_int64 {β : Type} (lib : BytesLib β) (little : Bool)
    (args : List (LuaVal β)) : Except LuaError (Ret β) :=
  if args.length ≠ 2 then .ok { results := [.boolean false], obj := arg_obj args, log := [] }
  else do
    let b ← mod_lua_checkbytes args 1
    let v ← luaL_optinteger args 2 0
    match b with
    | none => .ok { results := [.boolean false], obj := none, log := [] }
    | some b =>
      if v < INT64_MIN ∨ v > INT64_MAX then
        .ok { results := [.boolean false], obj := some b, log := [] }
      else
        let pos := lib.size b % 2 ^ 32
        let size := 8
        let e := lib.as_bytes_ensure b ((pos + size) % 2 ^ 32) true
        if e.1 = true then
          let val := to_signed 64 (be64toh little (to_unsigned 64 v))
          let w := lib.as_bytes_append_int64 e.2 val
          .ok { results := [.boolean w.1], obj := some w.2,
                log := [.ensure ((pos + size) % 2 ^ 32) true, .append_int64 val] }
        else
          .ok { results := [.boolean false], obj := some e.2,
                log := [.ensure ((pos + size) % 2 ^ 32) true] }

/-- The function `mod_lua_bytes_set_byte`. -/
def mod_lua_bytes_set_byte {β : Type} (lib : BytesLib β) (little : Bool)
    (args : List (LuaVal β)) : Except LuaError (Ret β) :=
  if args.length ≠ 3 then .ok { results := [.boolean false], obj := arg_obj args, log := [] }
  else do
    let b ← mod_lua_checkbytes args 1
    let i ← luaL_optinteger args 2 0
    let v ← luaL_optinteger args 3 0
    match b with
    | none => .ok { results := [.boolean false], obj := none, log := [] }
    | some b =>
      if i < 1 ∨ i > UINT32_MAX ∨ v < 0 ∨ v > UINT8_MAX then
        .ok { results := [.boolean false], obj := some b, log := [] }
      else
        let pos := to_unsigned 32 (i - 1)
        let size := 1
        let e := lib.as_bytes_ensure b ((pos + size) % 2 ^ 32) true
        if e.1 = true then
          let val := htons little (to_unsigned 8 v) % 2 ^ 8
          let w := lib.as_bytes_set_byte e.2 pos val
          .ok { results := [.boolean w.1], obj := some w.2,
                log := [.ensure ((pos + size) % 2 ^ 32) true, .set_byte pos val] }
        else
          .ok { results := [.boolean false], obj := some e.2,
                log := [.ensure ((pos + size) % 2 ^ 32) true] }

/-- The function `mod_lua_bytes_set_int16`. -/
def mod_lua_bytes_set_int16 {β : Type} (lib : BytesLib β) (little : Bool)
    (args : List (LuaVal β)) : Except LuaError (Ret β) :=
  if args.length ≠ 3 then .ok { results := [.boolean false], obj := arg_obj args, log := [] }
  else do
    let b ← mod_lua_checkbytes args 1
    let i ← luaL_optinteger args 2 0
    let v ← luaL_optinteger args 3 0
    match b with
    | none => .ok { results := [.boolean false], obj := none, log := [] }
    | some b =>
      if i < 1 ∨ i > UINT32_MAX ∨ v < INT16_MIN ∨ v > INT16_MAX then
        .ok { results := [.boolean false], obj := some b, log := [] }
      else
        let pos := to_unsigned 32 (i - 1)
        let size := 2
        let e := lib.as_bytes_ensure b ((pos + size) % 2 ^ 32) true
        if e.1 = true then
          let val := to_signed 16 (htons little (to_unsigned 16 v))
          let w := lib.as_bytes_set_int16 e.2 pos val
          .ok { results := [.boolean w.1], obj := some w.2,
                log := [.ensure ((pos + size) % 2 ^ 32) true, .set_int16 pos val] }
        else
          .ok { results := [.boolean false], obj := some e.2,
                log := [.ensure ((pos + size) % 2 ^ 32) true] }

/-- The function `mod_lua_bytes_set_int32`. -/
def mod_lua_bytes_set_int32 {β : Type} (lib : BytesLib β) (little : Bool)
    (args : List (LuaVal β)) : Except LuaError (Ret β) :=
  if args.length ≠ 3 then .ok { results := [.boolean false], obj := arg_obj args, log := [] }
  else do
    let b ← mod_lua_checkbytes args 1
    let i ← luaL_optinteger args 2 0
    let v ← luaL_optinteger args 3 0
    match b with
    | none => .ok { results := [.boolean false], obj := none, log := [] }
    | some b =>
      if i < 1 ∨ i > UINT32_MAX ∨ v < INT32_MIN ∨ v > INT32_MAX then
        .ok { results := [.boolean false], obj := some b, log := [] }
      else
        let pos := to_unsigned 32 (i - 1)
        let size := 4
        let e := lib.as_bytes_ensure b ((pos + size) % 2 ^ 32) true
        if e.1 = true then
          let val := to_signed 32 (htonl little (to_unsigned 32 v))
          let w := lib.as_bytes_set_int32 e.2 pos val
          .ok { results := [.boolean w.1], obj := some w.2,
                log := [.ensure ((pos + size) % 2 ^ 32) true, .set_int32 pos val] }
        else
          .ok { results := [.boolean false], obj := some e.2,
                log := [.ensure ((pos + size) % 2 ^ 32) true] }

/-- The function `mod_lua_bytes_set_int64`. -/
def mod_lua_bytes_set_int64 {β : Type} (lib : BytesLib β) (little : Bool)
    (args : List (LuaVal β)) : Except LuaError (Ret β) :=
  if args.length ≠ 3 then .ok { results := [.boolean false], obj := arg_obj args, log := [] }
  else do
    let b ← mod_lua_checkbytes args 1
    let i ← luaL_optinteger args 2 0
    let v ← luaL_optinteger args 3 0
    match b with
    | none => .ok { results := [.boolean false], obj := none, log := [] }
    | some b =>
      if i < 1 ∨ i > UINT32_MAX ∨ v < INT64_MIN ∨ v > INT64_MAX then
        .ok { results := [.boolean false], obj := some b, log := [] }
      else
        let pos := to_unsigned 32 (i - 1)
        let size := 8
        let e := lib.as_bytes_ensure b ((pos + size) % 2 ^ 32) true
        if e.1 = true then
          let val := to_signed 64 (be64toh little (to_unsigned 64 v))
          let w := lib.as_bytes_set_int64 e.2 pos val
          .ok { results := [.boolean w.1], obj := some w.2,
                log := [.ensure ((pos + size) % 2 ^ 32) true, .set_int64 pos val] }
        else
          .ok { results := [.boolean false], obj := some e.2,
                log := [.ensure ((pos + size) % 2 ^ 32) true] }

/-- The function `mod_lua_bytes_get_byte`. -/
def mod_lua_bytes_get_byte {β : Type} (lib : BytesLib β) (little : Bool)
    (args : List (LuaVal β)) : Except LuaError (Ret β) :=
  if args.length ≥ 2 then .ok { results := [], obj := arg_obj args, log := [] }
  else do
    let b ← mod_lua_checkbytes args 1
    let i ← luaL_optinteger args 2 0
    match b with
    | none => .ok { results := [], obj := none, log := [] }
    | some b =>
      if i < 1 ∨ i > UINT32_MAX then .ok { results := [], obj := some b, log := [] }
      else
        let pos := to_unsigned 32 (i - 1)
        let g := lib.as_bytes_get_byte b pos
        if g.1 = 0 then .ok { results := [], obj := some b, log := [.get_byte pos] }
        else
          let res : Nat := ntohs little (g.2 % 2 ^ 8) % 2 ^ 8
          .ok { results := [.integer (Int.ofNat res)], obj := some b, log := [.get_byte pos] }

/-- The function `mod_lua_bytes_get_int16`. -/
def mod_lua_bytes_get_int16 {β : Type} (lib : BytesLib β) (little : Bool)
    (args : List (LuaVal β)) : Except LuaError (Ret β) :=
  if args.length ≥ 2 then .ok { results := [], obj := arg_obj args, log := [] }
  else do
    let b ← mod_lua_checkbytes args 1
    let i ← luaL_optinteger args 2 0
    match b with
    | none => .ok { results := [], obj := none, log := [] }
    | some b =>
      if i < 1 ∨ i > UINT32_MAX then .ok { results := [], obj := some b, log := [] }
      else
        let pos := to_unsigned 32 (i - 1)
        let g := lib.as_bytes_get_int16 b pos
        if g.1 = 0 then .ok { results := [], obj := some b, log := [.get_int16 pos] }
        else
          let res := to_signed 16 (ntohs little (to_unsigned 16 g.2))
          .ok { results := [.integer res], obj := some b, log := [.get_int16 pos] }

/-- The function `mod_lua_bytes_get_int32`. -/
def mod_lua_bytes_get_int32 {β : Type} (lib : BytesLib β) (little : Bool)
    (args : List (LuaVal β)) : Except LuaError (Ret β) :=
  if args.length ≥ 2 then .ok { results := [], obj := arg_obj args, log := [] }
  else do
    let b ← mod_lua_checkbytes args 1
    let i ← luaL_optinteger args 2 0
    match b with
    | none => .ok { results := [], obj := none, log := [] }
    | some b =>
      if i < 1 ∨ i > UINT32_MAX then .ok { results := [], obj := some b, log := [] }
      else
        let pos := to_unsigned 32 (i - 1)
        let g := lib.as_bytes_get_int32 b pos
        if g.1 = 0 then .ok { results := [], obj := some b, log := [.get_int32 pos] }
        else
          let res := to_signed 32 (ntohl little (to_unsigned 32 g.2))
          .ok { results := [.integer res], obj := some b, log := [.get_int32 pos] }

/-- The function `mod_lua_bytes_get_int64`. -/
def mod_lua_bytes_get_int64 {β : Type} (lib : BytesLib β) (little : Bool)
    (args : List (LuaVal β)) : Except LuaError (Ret β) :=
  if args.length ≥ 2 then .ok { results := [], obj := arg_obj args, log := [] }
  else do
    let b ← mod_lua_checkbytes args 1
    let i ← luaL_optinteger args 2 0
    match b with
    | none => .ok { results := [], obj := none, log := [] }
    | some b =>
      if i < 1 ∨ i > UINT32_MAX then .ok { results := [], obj := some b, log := [] }
      else
        let pos := to_unsigned 32 (i - 1)
        let g := lib.as_bytes_get_int64 b pos
        if g.1 = 0 then .ok { results := [], obj := some b, log := [.get_int64 pos] }
        else
          let res := to_signed 64 (be64toh little (to_unsigned 64 g.2))
          .ok { results := [.integer res], obj := some b, log := [.get_int64 pos] }

/-! ## A concrete bytes library for evaluating the bindings -/

/-- A concrete bytes object: contents, capacity and type. -/
structure DemoBytes where
  value : List Nat
  capacity : Nat
  type : Int
deriving DecidableEq, Repr

/-- Write the bytes `bs` at offset `pos` when they fit in the capacity, padding a gap
with zeros. -/
def DemoBytes.put (b : DemoBytes) (pos : Nat) (bs : List Nat) : Bool × DemoBytes :=
  if pos + bs.length ≤ b.capacity then
    let padded := b.value ++ List.replicate (pos - b.value.length) 0
    (true, { value := padded.take pos ++ bs ++ padded.drop (pos + bs.length),
             capacity := b.capacity, type := b.type })
  else (false, b)

/-- Read `n` bytes at offset `pos` as an unsigned number stored least significant byte
first; the count read is 0 when they are not all there. -/
def DemoBytes.read (b : DemoBytes) (pos n : Nat) : Nat × Nat :=
  if pos + n ≤ b.value.length then (n, of_be ((b.value.drop pos).take n).reverse)
  else (0, 0)

/-- The concrete bytes library: `as_bytes_ensure` grows the capacity when asked to
resize, writes succeed within the capacity, reads succeed within the size, and
integers are stored least significant byte first. -/
def demoLib : BytesLib DemoBytes where
  size := fun b => b.value.length
  as_bytes_get_type := fun b => b.type
  as_bytes_ensure := fun b c r =>
    if c ≤ b.capacity then (true, b)
    else if r then (true, { value := b.value, capacity := c, type := b.type })
    else (false, b)
  as_bytes_append_byte := fun b v => b.put b.value.length [v]
  as_bytes_append_int16 := fun b v => b.put b.value.length (bytes_le 2 (to_unsigned 16 v))
  as_bytes_append_int32 := fun b v => b.put b.value.length (bytes_le 4 (to_unsigned 32 v))
  as_bytes_append_int64 := fun b v => b.put b.value.length (bytes_le 8 (to_unsigned 64 v))
  as_bytes_set_byte := fun b p v => b.put p [v]
  as_bytes_set_int16 := fun b p v => b.put p (bytes_le 2 (to_unsigned 16 v))
  as_bytes_set_int32 := fun b p v => b.put p (bytes_le 4 (to_unsigned 32 v))
  as_bytes_set_int64 := fun b p v => b.put p (bytes_le 8 (to_unsigned 64 v))
  as_bytes_get_byte := fun b p => b.read p 1
  as_bytes_get_int16 := fun b p => ((b.read p 2).1, to_signed 16 (b.read p 2).2)
  as_bytes_get_int32 := fun b p => ((b.read p 4).1, to_signed 32 (b.read p 4).2)
  as_bytes_get_int64 := fun b p => ((b.read p 8).1, to_signed 64 (b.read p 8).2)

/-- A bytes object of size 1 and capacity 8 holding the byte 7, of type 4. -/
def demoBytes : DemoBytes := { value := [7], capacity := 8, type := 4 }

/-! ## Theorems -/

/-- C1: on a null handle, or on a handle whose hook is absent, the kernel operations
return their neutral value and change nothing: `as_val_free` gives 1 and
`as_val_type` gives `AS_UNKNOWN` when the handle is null or `free` is absent
(whatever tag is recorded), `as_val_hash` gives 0 when the handle is null or
`hash` is absent, `as_val_tostring` gives `NULL` when the handle is null or
`tostring` is absent. -/
theorem as_val_neutral_defaults {σ : Type} (env : Env σ) (s : State σ) (v : Ptr) (x : as_val)
    (hv : v = NULL ∨ load_val s.mem v = .ok x) :
    ((v = NULL ∨ x.free = NULL) →
      as_val_free env v s = .ok (1, s) ∧ as_val_type s.mem v = .ok AS_UNKNOWN) ∧
    ((v = NULL ∨ x.hash = NULL) → as_val_hash env v s = .ok (0, s)) ∧
    ((v = NULL ∨ x.tostring = NULL) → as_val_tostring env v s = .ok (NULL, s)) := by
  by_cases h0 : v = 0
  · subst h0
    simp [as_val_free, as_val_type, as_val_hash, as_val_tostring]
  · have hx : load_val s.mem v = .ok x := by
      rcases hv with hv | hv
      · exact absurd hv h0
      · exact hv
    refine ⟨?_, ?_, ?_⟩
    · intro h
      have hf : x.free = 0 := by
        rcases h with h | h
        · exact absurd h h0
        · exact h
      simp [as_val_free, as_val_type, h0, hx, hf]
    · intro h
      have hf : x.hash = 0 := by
        rcases h with h | h
        · exact absurd h h0
        · exact h
      simp [as_val_hash, h0, hx, hf]
    · intro h
      have hf : x.tostring = 0 := by
        rcases h with h | h
        · exact absurd h h0
        · exact h
      simp [as_val_tostring, h0, hx, hf]

/-- Witness of C1 on the bare value at address 16 of the concrete world. -/
theorem as_val_neutral_defaults_witness :
    (as_val_free demoEnv 16 demoState = .ok (1, demoState) ∧
      as_val_type demoState.mem 16 = .ok AS_UNKNOWN) ∧
    as_val_hash demoEnv 16 demoState = .ok (0, demoState) ∧
    as_val_tostring demoEnv 16 demoState = .ok (NULL, demoState) :=
  have h := as_val_neutral_defaults demoEnv demoState 16 bareVal (Or.inr rfl)
  ⟨h.1 (Or.inr rfl), h.2.1 (Or.inr rfl), h.2.2 (Or.inr rfl)⟩

/-- C2: on a non-null handle each kernel operation whose hook is installed returns
what the handle's own hook returns on the handle itself: `as_val_free` runs the
code at `v->free` on `v` (`as_rec_freeval` when that is its address, the backend
code otherwise, which is logged as one call with the single argument `v`),
`as_val_hash` and `as_val_tostring` run the code at `v->hash` and
`v->tostring` on `v`, and `as_val_type` is the recorded tag whenever `free` is
installed.  Nothing but the members of the handle decides the result. -/
theorem as_val_dispatch_own_hooks {σ : Type} (env : Env σ) (s : State σ) (v : Ptr)
    (x : as_val) (hv : v ≠ NULL) (hx : load_val s.mem v = .ok x) :
    (x.free ≠ NULL →
      as_val_type s.mem v = .ok x.type ∧
      (x.free = env.addr_as_rec_freeval → as_val_free env v s = as_rec_freeval env v s) ∧
      (x.free ≠ env.addr_as_rec_freeval →
        as_val_free env v s = .ok ((env.int_fn x.free [.ptr v] s.mem s.ext).1,
          { mem := (env.int_fn x.free [.ptr v] s.mem s.ext).2.1,
            ext := (env.int_fn x.free [.ptr v] s.mem s.ext).2.2,
            calls := s.calls ++ [(x.free, [.ptr v])] }))) ∧
    (x.hash ≠ NULL →
      as_val_hash env v s = .ok ((env.u32_fn x.hash [.ptr v] s.mem s.ext).1,
        { mem := (env.u32_fn x.hash [.ptr v] s.mem s.ext).2.1,
          ext := (env.u32_fn x.hash [.ptr v] s.mem s.ext).2.2,
          calls := s.calls ++ [(x.hash, [.ptr v])] })) ∧
    (x.tostring ≠ NULL →
      as_val_tostring env v s = .ok ((env.ptr_fn x.tostring [.ptr v] s.mem s.ext).1,
        { mem := (env.ptr_fn x.tostring [.ptr v] s.mem s.ext).2.1,
          ext := (env.ptr_fn x.tostring [.ptr v] s.mem s.ext).2.2,
          calls := s.calls ++ [(x.tostring, [.ptr v])] })) := by
  have h0 : ¬ v = 0 := hv
  refine ⟨?_, ?_, ?_⟩
  · intro hf
    have hf0 : ¬ x.free = 0 := hf
    refine ⟨?_, ?_, ?_⟩
    · simp [as_val_type, h0, hx, hf0]
    · intro ha
      have ha0 : ¬ env.addr_as_rec_freeval = 0 := by rw [← ha]; exact hf0
      simp [as_val_free, call_val_free, h0, hx, ← ha, hf0]
    · intro ha
      simp [as_val_free, call_val_free, call_int, h0, hx, hf0, ha]
  · intro hf
    have hf0 : ¬ x.hash = 0 := hf
    simp [as_val_hash, call_u32, h0, hx, hf0]
  · intro hf
    have hf0 : ¬ x.tostring = 0 := hf
    simp [as_val_tostring, call_ptr, h0, hx, hf0]

/-- Witness of C2 on the value with hooks at address 24 of the concrete world: free
returns 5, hash 99, tostring the address 640, each logged as one call on 24. -/
theorem as_val_dispatch_own_hooks_witness :
    as_val_type demoState.mem 24 = .ok AS_STRING ∧
    as_val_free demoEnv 24 demoState
      = .ok (5, { mem := demoMem, ext := demoState.ext, calls := [(301, [.ptr 24])] }) ∧
    as_val_hash demoEnv 24 demoState
      = .ok (99, { mem := demoMem, ext := demoState.ext, calls := [(302, [.ptr 24])] }) ∧
    as_val_tostring demoEnv 24 demoState
      = .ok (640, { mem := demoMem, ext := demoState.ext, calls := [(303, [.ptr 24])] }) :=
  have h := as_val_dispatch_own_hooks demoEnv demoState 24 fullVal (by decide) rfl
  ⟨(h.1 (by decide)).1, (h.1 (by decide)).2.2 (by decide), h.2.1 (by decide),
    h.2.2 (by decide)⟩

/-- Every record that `as_rec_create` returns is non-null and carries the descriptor
`AS_RECORD_VAL`, whose `free` member is null. -/
theorem as_rec_create_descriptor {σ : Type} (env : Env σ) (source hooks : Ptr)
    (s s1 : State σ) (r : Ptr) (h : as_rec_create env source hooks s = .ok (r, s1)) :
    r ≠ NULL ∧ s1.ext = s.ext ∧ s1.calls = s.calls ∧
    load_rec s1.mem r = .ok { base := AS_RECORD_VAL env, source := source, hooks := hooks } ∧
    load_val s1.mem (as_rec_toval r) = .ok (AS_RECORD_VAL env) ∧
    (AS_RECORD_VAL env).free = NULL := by
  unfold as_rec_create at h
  by_cases h0 : env.malloc s.mem = 0
  · simp [h0] at h
  · simp only [h0, if_false] at h
    injection h with h
    injection h with hr hs
    subst hr
    subst hs
    simp [load_rec, load_val, as_rec_toval, Mem.store, h0, AS_RECORD_VAL]

/-- On every record that `as_rec_create` returns, the kind read through the value
kernel is `AS_UNKNOWN`, the downcast gives `NULL`, and `as_val_free` returns 1
without calling anything. -/
theorem as_rec_create_kernel_view {σ : Type} (env : Env σ) (source hooks : Ptr)
    (s s1 : State σ) (r : Ptr) (h : as_rec_create env source hooks s = .ok (r, s1)) :
    as_val_type s1.mem (as_rec_toval r) = .ok AS_UNKNOWN ∧
    as_rec_fromval s1.mem (as_rec_toval r) = .ok NULL ∧
    as_val_free env (as_rec_toval r) s1 = .ok (1, s1) := by
  obtain ⟨hr, -, -, -, hv, hf⟩ := as_rec_create_descriptor env source hooks s s1 r h
  have hr0 : ¬ as_rec_toval r = 0 := hr
  have hf0 : (AS_RECORD_VAL env).free = 0 := hf
  have ht : as_val_type s1.mem (as_rec_toval r) = .ok AS_UNKNOWN := by
    simp [as_val_type, hr0, hv, hf0]
  refine ⟨ht, ?_, ?_⟩
  · simp [as_rec_fromval, ht]
  · simp [as_val_free, hr0, hv, hf0]

/-- C3, evaluated on the code: `as_rec_create(0, 32)` returns the record at 48, and
upcasting then downcasting it does not give it back: `as_val_type` of its value
handle is `AS_UNKNOWN`, not `AS_REC`, and `as_rec_fromval` returns `NULL`.  The
descriptor `{AS_REC, as_rec_freeval}` fills `type` and `size`, so `free` is null
and `as_val_type` reports no kind. -/
theorem as_rec_roundtrip_lost :
    as_rec_create demoEnv 0 32 demoState = .ok (48, demoRecState) ∧
    (AS_RECORD_VAL demoEnv).type = AS_REC ∧
    (AS_RECORD_VAL demoEnv).size = demoEnv.addr_as_rec_freeval ∧
    (AS_RECORD_VAL demoEnv).free = NULL ∧
    as_val_type demoRecState.mem (as_rec_toval 48) = .ok AS_UNKNOWN ∧
    as_rec_fromval demoRecState.mem (as_rec_toval 48) = .ok NULL ∧
    (48 : Ptr) ≠ NULL :=
  have h := as_rec_create_kernel_view demoEnv 0 32 demoState demoRecState 48 rfl
  ⟨rfl, rfl, rfl, rfl, h.1, h.2.1, by decide⟩

/-- C4, evaluated on the code: on the record at 48 that `as_rec_create(0, 32)` returns,
whose hook table installs the teardown hook 103, `as_val_free` of the value
handle returns 1 and calls nothing, while the hook called directly through
`as_rec_free` returns 7 and is logged once. -/
theorem as_val_free_skips_teardown :
    as_rec_create demoEnv 0 32 demoState = .ok (48, demoRecState) ∧
    load_rec_hooks demoRecState.mem 32 = .ok { get := 101, set := 102, free := 103 } ∧
    as_val_free demoEnv (as_rec_toval 48) demoRecState = .ok (1, demoRecState) ∧
    demoRecState.calls = [] ∧
    as_rec_free demoEnv 48 demoRecState
      = .ok (7, { mem := demoRecState.mem, ext := demoRecState.ext,
                  calls := [(103, [.ptr 48])] }) :=
  have h := as_rec_create_kernel_view demoEnv 0 32 demoState demoRecState 48 rfl
  ⟨rfl, rfl, h.2.2, rfl, rfl⟩

/-- C5: `as_rec_fromval` decides on `as_val_type` alone.  For a handle whose kind reads
as `t`: the result is `NULL` when the handle is null or `t` is not `AS_REC`; it is
the handle itself, which is then non-null, when `t` is `AS_REC`; for a non-null
handle it is the handle exactly when `t` is `AS_REC`; and every handle whose
recorded tag is not `AS_REC` (so `AS_LIST`, `AS_MAP`, `AS_STRING`, `AS_INTEGER`,
`AS_BOOLEAN`, `AS_PAIR`, `AS_EMPTY`, `AS_UNKNOWN`) gives `NULL`. -/
theorem as_rec_fromval_by_kind (m : Mem) (v : Ptr) (t : as_val_t)
    (ht : as_val_type m v = .ok t) :
    ((v = NULL ∨ t ≠ AS_REC) → as_rec_fromval m v = .ok NULL) ∧
    (t = AS_REC → as_rec_fromval m v = .ok v ∧ v ≠ NULL) ∧
    (v ≠ NULL → (as_rec_fromval m v = .ok v ↔ t = AS_REC)) ∧
    (∀ x, load_val m v = .ok x → x.type ≠ AS_REC → as_rec_fromval m v = .ok NULL) := by
  have hnull : v = 0 → t = AS_UNKNOWN := by
    intro h0
    subst h0
    simp [as_val_type] at ht
    exact ht.symm
  refine ⟨?_, ?_, ?_, ?_⟩
  · rintro (h | h)
    · have := hnull h
      subst this
      simp [as_rec_fromval, ht]
    · simp [as_rec_fromval, ht, h]
  · intro h
    subst h
    refine ⟨by simp [as_rec_fromval, ht], ?_⟩
    intro h0
    have := hnull h0
    cases this
  · intro hv
    constructor
    · intro h
      by_contra hne
      simp [as_rec_fromval, ht, hne] at h
      exact hv h.symm
    · intro h
      simp [as_rec_fromval, ht, h]
  · intro x hx hne
    by_cases h0 : v = 0
    · have := hnull h0
      subst this
      simp [as_rec_fromval, ht]
    · have : t ≠ AS_REC := by
        intro h
        subst h
        unfold as_val_type at ht
        simp only [h0, if_false, hx] at ht
        by_cases hf : x.free = 0
        · simp [hf] at ht
        · simp [hf] at ht
          exact hne ht
      simp [as_rec_fromval, ht, this]

/-- Witness of C5 on the record at address 80 of the concrete world, whose kind reads
as `AS_REC`: the downcast returns 80. -/
theorem as_rec_fromval_by_kind_witness :
    as_val_type demoMem 80 = .ok AS_REC ∧ as_rec_fromval demoMem 80 = .ok 80 ∧
    (80 : Ptr) ≠ NULL :=
  have h := as_rec_fromval_by_kind demoMem 80 AS_REC rfl
  ⟨rfl, (h.2.1 rfl).1, (h.2.1 rfl).2⟩

/-- C7, evaluated on the code: the record functions call through the hook table
unguarded.  On the record at 48 that `as_rec_create(0, NULL)` returns, whose
hook table is null, `as_rec_get`, `as_rec_set` and `as_rec_free` dereference the
null table; on the record at 80, whose table has null entries, they call through
the null entry.  None returns a value. -/
theorem as_rec_ops_fault_without_hooks :
    as_rec_create demoEnv 0 NULL demoState = .ok (48, demoBareRecState) ∧
    as_rec_get demoEnv 48 "x" demoBareRecState = .error .null_deref ∧
    as_rec_set demoEnv 48 "x" 16 demoBareRecState = .error .null_deref ∧
    as_rec_free demoEnv 48 demoBareRecState = .error .null_deref ∧
    load_rec_hooks demoState.mem 88 = .ok { get := NULL, set := NULL, free := NULL } ∧
    as_rec_get demoEnv 80 "x" demoState = .error .null_call ∧
    as_rec_set demoEnv 80 "x" 16 demoState = .error .null_call ∧
    as_rec_free demoEnv 80 demoState = .error .null_call :=
  ⟨rfl, rfl, rfl, rfl, rfl, rfl, rfl, rfl⟩

/-- C9: `as_val_size` is total.  For the null handle it returns the footprint
`sizeof(as_val)`; for every non-null handle it returns the size recorded in the
value, whichever hooks the value has. -/
theorem as_val_size_total (sizeof_as_val : Nat) (m : Mem) :
    as_val_size sizeof_as_val m NULL = .ok sizeof_as_val ∧
    ∀ (v : Ptr) (x : as_val), v ≠ NULL → load_val m v = .ok x →
      as_val_size sizeof_as_val m v = .ok x.size := by
  refine ⟨by simp [as_val_size], ?_⟩
  intro v x hv hx
  have h0 : ¬ v = 0 := hv
  simp [as_val_size, h0, hx]

/-- Witness of C9 in the concrete world: the value without hooks at 16 and the value
with hooks at 24 both give their recorded size. -/
theorem as_val_size_total_witness :
    as_val_size 40 demoMem NULL = .ok 40 ∧
    as_val_size 40 demoMem 16 = .ok 8 ∧ as_val_size 40 demoMem 24 = .ok 24 :=
  have h := as_val_size_total 40 demoMem
  ⟨h.1, h.2 16 bareVal (by decide) rfl, h.2 24 fullVal (by decide) rfl⟩

/-- An absent hook makes `as_util_hook` return the default and change nothing. -/
theorem as_util_hook_absent {σ ρ : Type}
    (call : FnPtr → List Arg → State σ → Except Fault (ρ × State σ))
    (hook : as_list_hooks → FnPtr) (dflt : ρ) (l : Ptr) (args : List Arg) (s : State σ)
    (h : hook_absent hook s.mem l) :
    as_util_hook call hook dflt l args s = .ok (dflt, s) := by
  unfold as_util_hook
  rcases h with h | ⟨x, hx, h⟩
  · have h0 : l = 0 := h
    simp [h0]
  · by_cases h0 : l = 0
    · simp [h0]
    · simp only [h0, if_false, hx]
      rcases h with h | ⟨t, ht, h⟩
      · have hh : x.hooks = 0 := h
        simp [hh]
      · by_cases hh : x.hooks = 0
        · simp [hh]
        · simp only [hh, if_false, ht]
          simp [h]

/-- An installed hook makes `as_util_hook` call it on the object followed by the
remaining arguments. -/
theorem as_util_hook_installed {σ ρ : Type}
    (call : FnPtr → List Arg → State σ → Except Fault (ρ × State σ))
    (hook : as_list_hooks → FnPtr) (dflt : ρ) (l : Ptr) (args : List Arg) (s : State σ)
    (f : FnPtr) (h : hook_installed hook s.mem l f) :
    as_util_hook call hook dflt l args s = call f (.ptr l :: args) s := by
  obtain ⟨hl, hf, x, t, hx, hh, ht, hft⟩ := h
  have hl0 : ¬ l = 0 := hl
  have hh0 : ¬ x.hooks = 0 := hh
  subst hft
  have hf0 : ¬ hook t = 0 := hf
  simp [as_util_hook, hl0, hx, hh0, ht, hf0]

/-- C8: each list wrapper returns its declared default, changing nothing, when the list
is null, its hook table is null, or the hook it uses is absent: 0 for
`as_list_size` and `as_list_hash`; `NULL` for `as_list_get`, `as_list_head`,
`as_list_tail` and `as_list_iterator`; 1 for `as_list_append`, `as_list_prepend`,
`as_list_set` and `as_list_free`.  When the hook is installed, each wrapper
returns what calling the hook on the list and the wrapper's other arguments
returns. -/
theorem as_list_wrappers_default_or_hook {σ : Type} (env : Env σ) (s : State σ) (l : Ptr) :
    ((hook_absent as_list_hooks.size s.mem l → as_list_size env l s = .ok (0, s)) ∧
     (hook_absent as_list_hooks.hash s.mem l → as_list_hash env l s = .ok (0, s)) ∧
     (hook_absent as_list_hooks.get s.mem l → ∀ i, as_list_get env l i s = .ok (NULL, s)) ∧
     (hook_absent as_list_hooks.head s.mem l → as_list_head env l s = .ok (NULL, s)) ∧
     (hook_absent as_list_hooks.tail s.mem l → as_list_tail env l s = .ok (NULL, s)) ∧
     (hook_absent as_list_hooks.iterator s.mem l →
        as_list_iterator env l s = .ok (NULL, s)) ∧
     (hook_absent as_list_hooks.append s.mem l →
        ∀ v, as_list_append env l v s = .ok (1, s)) ∧
     (hook_absent as_list_hooks.prepend s.mem l →
        ∀ v, as_list_prepend env l v s = .ok (1, s)) ∧
     (hook_absent as_list_hooks.set s.mem l → ∀ i v, as_list_set env l i v s = .ok (1, s)) ∧
     (hook_absent as_list_hooks.free s.mem l → as_list_free env l s = .ok (1, s))) ∧
    (∀ f : FnPtr,
     (hook_installed as_list_hooks.size s.mem l f →
        as_list_size env l s = call_u32 env f [.ptr l] s) ∧
     (hook_installed as_list_hooks.hash s.mem l f →
        as_list_hash env l s = call_u32 env f [.ptr l] s) ∧
     (hook_installed as_list_hooks.get s.mem l f →
        ∀ i, as_list_get env l i s = call_ptr env f [.ptr l, .u32 i] s) ∧
     (hook_installed as_list_hooks.head s.mem l f →
        as_list_head env l s = call_ptr env f [.ptr l] s) ∧
     (hook_installed as_list_hooks.tail s.mem l f →
        as_list_tail env l s = call_ptr env f [.ptr l] s) ∧
     (hook_installed as_list_hooks.iterator s.mem l f →
        as_list_iterator env l s = call_ptr env f [.ptr l] s) ∧
     (hook_installed as_list_hooks.append s.mem l f →
        ∀ v, as_list_append env l v s = call_int env f [.ptr l, .ptr v] s) ∧
     (hook_installed as_list_hooks.prepend s.mem l f →
        ∀ v, as_list_prepend env l v s = call_int env f [.ptr l, .ptr v] s) ∧
     (hook_installed as_list_hooks.set s.mem l f →
        ∀ i v, as_list_set env l i v s = call_int env f [.ptr l, .u32 i, .ptr v] s) ∧
     (hook_installed as_list_hooks.free s.mem l f →
        as_list_free env l s = call_int env f [.ptr l] s)) ∧
    (∀ (f : FnPtr) (args : List Arg), f ≠ NULL →
      call_int env f args s = .ok ((env.int_fn f args s.mem s.ext).1,
        { mem := (env.int_fn f args s.mem s.ext).2.1,
          ext := (env.int_fn f args s.mem s.ext).2.2,
          calls := s.calls ++ [(f, args)] }) ∧
      call_u32 env f args s = .ok ((env.u32_fn f args s.mem s.ext).1,
        { mem := (env.u32_fn f args s.mem s.ext).2.1,
          ext := (env.u32_fn f args s.mem s.ext).2.2,
          calls := s.calls ++ [(f, args)] }) ∧
      call_ptr env f args s = .ok ((env.ptr_fn f args s.mem s.ext).1,
        { mem := (env.ptr_fn f args s.mem s.ext).2.1,
          ext := (env.ptr_fn f args s.mem s.ext).2.2,
          calls := s.calls ++ [(f, args)] })) := by
  refine ⟨⟨?_, ?_, ?_, ?_, ?_, ?_, ?_, ?_, ?_, ?_⟩, ?_, ?_⟩
  · exact fun h => as_util_hook_absent _ _ _ _ _ _ h
  · exact fun h => as_util_hook_absent _ _ _ _ _ _ h
  · exact fun h _ => as_util_hook_absent _ _ _ _ _ _ h
  · exact fun h => as_util_hook_absent _ _ _ _ _ _ h
  · exact fun h => as_util_hook_absent _ _ _ _ _ _ h
  · exact fun h => as_util_hook_absent _ _ _ _ _ _ h
  · exact fun h _ => as_util_hook_absent _ _ _ _ _ _ h
  · exact fun h _ => as_util_hook_absent _ _ _ _ _ _ h
  · exact fun h _ _ => as_util_hook_absent _ _ _ _ _ _ h
  · exact fun h => as_util_hook_absent _ _ _ _ _ _ h
  · intro f
    refine ⟨?_, ?_, ?_, ?_, ?_, ?_, ?_, ?_, ?_, ?_⟩
    · exact fun h => as_util_hook_installed _ _ _ _ _ _ f h
    · exact fun h => as_util_hook_installed _ _ _ _ _ _ f h
    · exact fun h _ => as_util_hook_installed _ _ _ _ _ _ f h
    · exact fun h => as_util_hook_installed _ _ _ _ _ _ f h
    · exact fun h => as_util_hook_installed _ _ _ _ _ _ f h
    · exact fun h => as_util_hook_installed _ _ _ _ _ _ f h
    · exact fun h _ => as_util_hook_installed _ _ _ _ _ _ f h
    · exact fun h _ => as_util_hook_installed _ _ _ _ _ _ f h
    · exact fun h _ _ => as_util_hook_installed _ _ _ _ _ _ f h
    · exact fun h => as_util_hook_installed _ _ _ _ _ _ f h
  · intro f args hf
    have hf0 : ¬ f = 0 := hf
    simp [call_int, call_u32, call_ptr, hf0]

/-- Witness of C8 in the concrete world: the list at 72, whose hook table has only null
entries, gets the defaults; on the list at 56 `as_list_size` is the call of the
installed hook 201 and returns its result 0, logged as one call on 56. -/
theorem as_list_wrappers_default_or_hook_witness :
    as_list_size demoEnv 72 demoState = .ok (0, demoState) ∧
    as_list_get demoEnv 72 3 demoState = .ok (NULL, demoState) ∧
    as_list_append demoEnv 72 16 demoState = .ok (1, demoState) ∧
    as_list_free demoEnv 72 demoState = .ok (1, demoState) ∧
    as_list_size demoEnv 56 demoState = call_u32 demoEnv 201 [.ptr 56] demoState ∧
    call_u32 demoEnv 201 [.ptr 56] demoState
      = .ok (0, { mem := demoMem, ext := demoState.ext, calls := [(201, [.ptr 56])] }) :=
  have hno : ∀ hook : as_list_hooks → FnPtr, hook noHooks = NULL →
      hook_absent hook demoState.mem 72 :=
    fun _ hk => Or.inr ⟨_, rfl, Or.inr ⟨noHooks, rfl, hk⟩⟩
  have hsz : hook_installed as_list_hooks.size demoState.mem 56 201 :=
    ⟨by decide, by decide, _, seqHooks, rfl, by decide, rfl, rfl⟩
  have h72 := as_list_wrappers_default_or_hook demoEnv demoState 72
  have h56 := as_list_wrappers_default_or_hook demoEnv demoState 56
  ⟨h72.1.1 (hno _ rfl), h72.1.2.2.1 (hno _ rfl) 3, h72.1.2.2.2.2.2.2.1 (hno _ rfl) 16,
    h72.1.2.2.2.2.2.2.2.2.2 (hno _ rfl), (h56.2.1 201).1 hsz,
    (h56.2.2 201 [.ptr 56] (by decide)).2.1⟩

/-- C6: `as_rec_get` and `as_rec_set` hand the record, the name and the value unchanged
to the `get` and `set` entries of the record's hook table and return the hook's
result unchanged (one logged call each); hence, over any backend whose hooks
store bins as a name-to-value map, `as_rec_get` after `as_rec_set` of the same
name returns the value that was set, and `as_rec_get` of a name with no bin
returns `NULL`, also after another name was set. -/
theorem as_rec_set_get_roundtrip {σ : Type} (env : Env σ) (s : State σ) (r : Ptr)
    (x : as_rec) (h : as_rec_hooks)
    (hr : load_rec s.mem r = .ok x) (hh : load_rec_hooks s.mem x.hooks = .ok h)
    (hget : h.get ≠ NULL) (hset : h.set ≠ NULL) :
    (∀ name, as_rec_get env r name s
      = .ok ((env.ptr_fn h.get [.ptr r, .str name] s.mem s.ext).1,
          { mem := (env.ptr_fn h.get [.ptr r, .str name] s.mem s.ext).2.1,
            ext := (env.ptr_fn h.get [.ptr r, .str name] s.mem s.ext).2.2,
            calls := s.calls ++ [(h.get, [.ptr r, .str name])] })) ∧
    (∀ name v, as_rec_set env r name v s
      = .ok ((env.int_fn h.set [.ptr r, .str name, .ptr v] s.mem s.ext).1,
          { mem := (env.int_fn h.set [.ptr r, .str name, .ptr v] s.mem s.ext).2.1,
            ext := (env.int_fn h.set [.ptr r, .str name, .ptr v] s.mem s.ext).2.2,
            calls := s.calls ++ [(h.set, [.ptr r, .str name, .ptr v])] })) ∧
    (∀ bins : σ → Ptr → String → Ptr, MapBackend env h.get h.set bins →
      (∀ name v, ∃ rc s1 s2, as_rec_set env r name v s = .ok (rc, s1) ∧
        as_rec_get env r name s1 = .ok (v, s2)) ∧
      (∀ name, bins s.ext r name = NULL →
        ∃ s1, as_rec_get env r name s = .ok (NULL, s1)) ∧
      (∀ name other v, other ≠ name → bins s.ext r name = NULL →
        ∃ rc s1 s2, as_rec_set env r other v s = .ok (rc, s1) ∧
          as_rec_get env r name s1 = .ok (NULL, s2))) := by
  have hget0 : ¬ h.get = 0 := hget
  have hset0 : ¬ h.set = 0 := hset
  have fwd : ∀ (t : State σ), load_rec t.mem r = .ok x →
      load_rec_hooks t.mem x.hooks = .ok h → ∀ name, as_rec_get env r name t
      = .ok ((env.ptr_fn h.get [.ptr r, .str name] t.mem t.ext).1,
          { mem := (env.ptr_fn h.get [.ptr r, .str name] t.mem t.ext).2.1,
            ext := (env.ptr_fn h.get [.ptr r, .str name] t.mem t.ext).2.2,
            calls := t.calls ++ [(h.get, [.ptr r, .str name])] }) := by
    intro t h1 h2 name
    simp [as_rec_get, h1, h2, call_ptr, hget0]
  have fws : ∀ name v, as_rec_set env r name v s
      = .ok ((env.int_fn h.set [.ptr r, .str name, .ptr v] s.mem s.ext).1,
          { mem := (env.int_fn h.set [.ptr r, .str name, .ptr v] s.mem s.ext).2.1,
            ext := (env.int_fn h.set [.ptr r, .str name, .ptr v] s.mem s.ext).2.2,
            calls := s.calls ++ [(h.set, [.ptr r, .str name, .ptr v])] }) := by
    intro name v
    simp [as_rec_set, hr, hh, call_int, hset0]
  refine ⟨fwd s hr hh, fws, ?_⟩
  intro bins hb
  have after : ∀ other v name, ∃ rc s1 s2, as_rec_set env r other v s = .ok (rc, s1) ∧
      as_rec_get env r name s1 = .ok (if name = other then v else bins s.ext r name, s2) := by
    intro other v name
    have hk := hb.set_keeps s.mem s.ext r other v x hr
    have hg := fwd
      { mem := (env.int_fn h.set [.ptr r, .str other, .ptr v] s.mem s.ext).2.1,
        ext := (env.int_fn h.set [.ptr r, .str other, .ptr v] s.mem s.ext).2.2,
        calls := s.calls ++ [(h.set, [.ptr r, .str other, .ptr v])] }
      hk.1 (hk.2.trans hh) name
    simp only [hb.get_result, hb.set_bins] at hg
    exact ⟨_, _, _, fws other v, hg⟩
  refine ⟨?_, ?_, ?_⟩
  · intro name v
    obtain ⟨rc, s1, s2, h1, h2⟩ := after name v name
    exact ⟨rc, s1, s2, h1, by simpa using h2⟩
  · intro name hn
    have hg := fwd s hr hh name
    rw [hb.get_result, hn] at hg
    exact ⟨_, hg⟩
  · intro name other v hne hn
    obtain ⟨rc, s1, s2, h1, h2⟩ := after other v name
    refine ⟨rc, s1, s2, h1, ?_⟩
    rw [h2, if_neg (Ne.symm hne), hn]

/-- Witness of C6 on the record at 48 of the concrete world, whose hooks 101 and 102
keep the bins in an association list: set "x" to 16, then get "x" gives 16, and
get "y" gives `NULL`. -/
theorem as_rec_set_get_roundtrip_witness :
    (∃ rc s1 s2, as_rec_set demoEnv 48 "x" 16 demoRecState = .ok (rc, s1) ∧
      as_rec_get demoEnv 48 "x" s1 = .ok (16, s2)) ∧
    (∃ s1, as_rec_get demoEnv 48 "y" demoRecState = .ok (NULL, s1)) :=
  have hb : MapBackend demoEnv 101 102 (fun e _ n => e.bin n) :=
    { get_result := fun _ _ _ _ => rfl
      get_keeps := fun _ _ _ _ => rfl
      set_bins := fun _ e _ n v k => by
        by_cases hk : k = n
        · simp [demoEnv, Backing.bin, List.find?, hk]
        · have hk2 : (n == k) = false := by
            simp only [beq_eq_false_iff_ne, ne_eq]
            exact fun h => hk h.symm
          simp [demoEnv, Backing.bin, List.find?, hk, hk2]
      set_keeps := fun _ _ _ _ _ _ hx => ⟨hx, rfl⟩ }
  have h := as_rec_set_get_roundtrip demoEnv demoRecState 48
    { base := AS_RECORD_VAL demoEnv, source := 0, hooks := 32 }
    { get := 101, set := 102, free := 103 } rfl rfl (by decide) (by decide)
  ⟨(h.2.2 _ hb).1 "x" 16, (h.2.2 _ hb).2.1 "y" rfl⟩

/-- C10 as stated fails on the list at 72 of the concrete world, whose hook table has no
`append` entry: the size is 0 before, `as_list_append` of the non-null value 16
returns 1 and changes nothing, the size is 0 afterwards, and `as_list_get` at
`size - 1` returns `NULL`, not 16. -/
theorem as_list_append_without_hook :
    load_list demoState.mem 72 = .ok { base := listBase, source := 0, hooks := 64 } ∧
    load_list_hooks demoState.mem 64 = .ok noHooks ∧
    as_list_size demoEnv 72 demoState = .ok (0, demoState) ∧
    (16 : Ptr) ≠ NULL ∧
    as_list_append demoEnv 72 16 demoState = .ok (1, demoState) ∧
    as_list_size demoEnv 72 demoState ≠ .ok (0 + 1, demoState) ∧
    as_list_get demoEnv 72 (u32_sub 0 1) demoState = .ok (NULL, demoState) ∧
    as_list_get demoEnv 72 (u32_sub 0 1) demoState ≠ .ok (16, demoState) := by
  have hs : as_list_size demoEnv 72 demoState = .ok (0, demoState) := rfl
  have hg : as_list_get demoEnv 72 (u32_sub 0 1) demoState = .ok (NULL, demoState) := rfl
  refine ⟨rfl, rfl, hs, by decide, rfl, ?_, hg, ?_⟩
  · rw [hs]
    intro h
    injection h with h
    injection h with h
    exact absurd h (by decide)
  · rw [hg]
    intro h
    injection h with h
    injection h with h
    exact absurd h (by decide)

/-- C10 as amended: on a list whose hook table installs `size`, `append` and `get`
hooks of a backend that keeps the elements as a growable sequence, holding fewer
than 2^32 - 1 of them, `as_list_append` of a non-null value raises
`as_list_size` by exactly 1, and `as_list_get` at the new `size - 1` returns that
value. -/
theorem as_list_append_grows {σ : Type} (env : Env σ) (s : State σ) (l v : Ptr)
    (x : as_list) (h : as_list_hooks) (elems : σ → Ptr → List Ptr)
    (hl : load_list s.mem l = .ok x) (hx : x.hooks ≠ NULL)
    (hh : load_list_hooks s.mem x.hooks = .ok h)
    (hsize : h.size ≠ NULL) (happend : h.append ≠ NULL) (hget : h.get ≠ NULL)
    (hb : SeqBackend env h.size h.append h.get elems)
    (hv : v ≠ NULL) (hlen : (elems s.ext l).length + 1 < 2 ^ 32) :
    ∃ n s0 rc s1 s2 s3,
      as_list_size env l s = .ok (n, s0) ∧
      as_list_append env l v s0 = .ok (rc, s1) ∧
      as_list_size env l s1 = .ok (n + 1, s2) ∧
      as_list_get env l (u32_sub (n + 1) 1) s2 = .ok (v, s3) := by
  have hl0 : l ≠ NULL := by
    intro h0
    have h0z : l = 0 := h0
    simp [load_list, h0z] at hl
  have inst : ∀ (hook : as_list_hooks → FnPtr) (t : State σ), hook h ≠ NULL →
      load_list t.mem l = .ok x → load_list_hooks t.mem x.hooks = .ok h →
      hook_installed hook t.mem l (hook h) :=
    fun hook t hk h1 h2 => ⟨hl0, hk, x, h, h1, hx, h2, rfl⟩
  have hsize0 : ¬ h.size = 0 := hsize
  have happend0 : ¬ h.append = 0 := happend
  have hget0 : ¬ h.get = 0 := hget
  -- what the three wrappers do on any state that still holds the list
  have size_at : ∀ t : State σ, load_list t.mem l = .ok x →
      load_list_hooks t.mem x.hooks = .ok h →
      as_list_size env l t = .ok ((elems t.ext l).length % 2 ^ 32,
        { mem := t.mem, ext := t.ext, calls := t.calls ++ [(h.size, [.ptr l])] }) := by
    intro t h1 h2
    unfold as_list_size
    rw [as_util_hook_installed _ _ _ _ _ t _ (inst as_list_hooks.size t hsize h1 h2)]
    simp [call_u32, hsize0, hb.size_result, hb.size_keeps]
  have append_at : ∀ t : State σ, load_list t.mem l = .ok x →
      load_list_hooks t.mem x.hooks = .ok h →
      as_list_append env l v t = .ok ((env.int_fn h.append [.ptr l, .ptr v] t.mem t.ext).1,
        { mem := (env.int_fn h.append [.ptr l, .ptr v] t.mem t.ext).2.1,
          ext := (env.int_fn h.append [.ptr l, .ptr v] t.mem t.ext).2.2,
          calls := t.calls ++ [(h.append, [.ptr l, .ptr v])] }) := by
    intro t h1 h2
    unfold as_list_append
    rw [as_util_hook_installed _ _ _ _ _ t _ (inst as_list_hooks.append t happend h1 h2)]
    simp [call_int, happend0]
  have get_at : ∀ (t : State σ) (i : Nat), load_list t.mem l = .ok x →
      load_list_hooks t.mem x.hooks = .ok h →
      as_list_get env l i t = .ok ((elems t.ext l).getD i NULL,
        { mem := t.mem, ext := t.ext, calls := t.calls ++ [(h.get, [.ptr l, .u32 i])] }) := by
    intro t i h1 h2
    unfold as_list_get
    rw [as_util_hook_installed _ _ _ _ _ t _ (inst as_list_hooks.get t hget h1 h2)]
    simp [call_ptr, hget0, hb.get_result, hb.get_keeps]
  -- the index of the last element
  have hidx : u32_sub ((elems s.ext l).length + 1) 1 = (elems s.ext l).length := by
    unfold u32_sub
    have h1 : (1 : Nat) % 2 ^ 32 = 1 := by norm_num
    have h2 : (elems s.ext l).length + 1 + 2 ^ 32 - 1 = (elems s.ext l).length + 2 ^ 32 := by
      omega
    rw [h1, h2, Nat.add_mod_right, Nat.mod_eq_of_lt (by omega)]
  have ek := hb.append_keeps s.mem s.ext l v x hl
  have ee := hb.append_elems s.mem s.ext l v hv
  -- the four steps
  have e0 := size_at s hl hh
  rw [Nat.mod_eq_of_lt (by omega)] at e0
  have e1 := append_at
    { mem := s.mem, ext := s.ext, calls := s.calls ++ [(h.size, [.ptr l])] } hl hh
  have e2 := size_at
    { mem := (env.int_fn h.append [.ptr l, .ptr v] s.mem s.ext).2.1,
      ext := (env.int_fn h.append [.ptr l, .ptr v] s.mem s.ext).2.2,
      calls := s.calls ++ [(h.size, [.ptr l])] ++ [(h.append, [.ptr l, .ptr v])] }
    ek.1 (ek.2.trans hh)
  simp only [ee, List.length_append, List.length_singleton] at e2
  rw [Nat.mod_eq_of_lt hlen] at e2
  have e3 := get_at
    { mem := (env.int_fn h.append [.ptr l, .ptr v] s.mem s.ext).2.1,
      ext := (env.int_fn h.append [.ptr l, .ptr v] s.mem s.ext).2.2,
      calls := s.calls ++ [(h.size, [.ptr l])] ++ [(h.append, [.ptr l, .ptr v])]
        ++ [(h.size, [.ptr l])] }
    (u32_sub ((elems s.ext l).length + 1) 1) ek.1 (ek.2.trans hh)
  simp only [ee, hidx] at e3
  have hlast : (elems s.ext l ++ [v]).getD (elems s.ext l).length NULL = v := by simp
  rw [hlast] at e3
  rw [← hidx] at e3
  exact ⟨_, _, _, _, _, _, e0, e1, e2, e3⟩

/-- Witness of the amended C10 on the list at 56 of the concrete world, whose hooks 201,
202 and 203 keep the elements in a sequence: appending 16 to the empty list
raises the size from 0 to 1 and the element at index 0 is 16. -/
theorem as_list_append_grows_witness :
    ∃ n s0 rc s1 s2 s3,
      as_list_size demoEnv 56 demoState = .ok (n, s0) ∧
      as_list_append demoEnv 56 16 s0 = .ok (rc, s1) ∧
      as_list_size demoEnv 56 s1 = .ok (n + 1, s2) ∧
      as_list_get demoEnv 56 (u32_sub (n + 1) 1) s2 = .ok (16, s3) :=
  have hb : SeqBackend demoEnv 201 202 203 (fun e _ => e.elems) :=
    { size_result := fun _ _ _ => rfl
      size_keeps := fun _ _ _ => rfl
      get_result := fun _ _ _ _ => rfl
      get_keeps := fun _ _ _ _ => rfl
      append_elems := fun _ _ _ v hv => by
        have hv0 : ¬ v = 0 := hv
        simp [demoEnv, hv0]
      append_keeps := fun m e _ v _ hx => by
        by_cases hv0 : v = 0
        · simp [demoEnv, hv0, hx]
        · simp [demoEnv, hv0, hx] }
  as_list_append_grows demoEnv demoState 56 16
    { base := listBase, source := 0, hooks := 40 } seqHooks (fun e _ => e.elems)
    rfl (by decide) rfl (by decide) (by decide) (by decide) hb (by decide) (by decide)

/-! ### Byte order -/

theorem bytes_le_length (n x : Nat) : (bytes_le n x).length = n := by
  induction n generalizing x with
  | zero => rfl
  | succ n ih => simp [bytes_le, ih]

theorem bytes_le_lt (n x : Nat) : ∀ b ∈ bytes_le n x, b < 256 := by
  induction n generalizing x with
  | zero => simp [bytes_le]
  | succ n ih =>
    intro b hb
    simp only [bytes_le, List.mem_cons] at hb
    rcases hb with hb | hb
    · rw [hb]; exact Nat.mod_lt _ (by norm_num)
    · exact ih _ b hb

theorem of_be_append (l : List Nat) (b : Nat) : of_be (l ++ [b]) = of_be l * 256 + b := by
  simp [of_be, List.foldl_append]

theorem of_be_lt (l : List Nat) (h : ∀ b ∈ l, b < 256) : of_be l < 256 ^ l.length := by
  induction l using List.reverseRecOn with
  | nil => simp [of_be]
  | append_singleton l b ih =>
    have hb : b < 256 := h b (by simp)
    have hl : of_be l < 256 ^ l.length := ih (fun c hc => h c (by simp [hc]))
    rw [of_be_append, List.length_append, List.length_singleton, pow_succ]
    nlinarith

theorem bytes_le_of_be (l : List Nat) (h : ∀ b ∈ l, b < 256) :
    bytes_le l.length (of_be l) = l.reverse := by
  induction l using List.reverseRecOn with
  | nil => rfl
  | append_singleton l b ih =>
    have hb : b < 256 := h b (by simp)
    have hl : ∀ c ∈ l, c < 256 := fun c hc => h c (by simp [hc])
    rw [of_be_append, List.length_append, List.length_singleton, List.reverse_append]
    simp only [bytes_le, List.reverse_cons, List.reverse_nil, List.nil_append,
      List.singleton_append]
    have h1 : (of_be l * 256 + b) % 256 = b := by omega
    have h2 : (of_be l * 256 + b) / 256 = of_be l := by omega
    rw [h1, h2, ih hl]

theorem of_be_reverse_bytes_le (n x : Nat) : of_be (bytes_le n x).reverse = x % 256 ^ n := by
  induction n generalizing x with
  | zero => simp [bytes_le, of_be, Nat.mod_one]
  | succ n ih =>
    simp only [bytes_le, List.reverse_cons]
    rw [of_be_append, ih, pow_succ, Nat.mul_comm (256 ^ n) 256, Nat.mod_mul]
    ring

/-- Reversing the bytes twice gives the value back. -/
theorem bswap_bswap (n x : Nat) (h : x < 256 ^ n) : bswap n (bswap n x) = x := by
  unfold bswap
  have h1 := bytes_le_of_be (bytes_le n x) (bytes_le_lt n x)
  rw [bytes_le_length] at h1
  rw [h1, of_be_reverse_bytes_le, Nat.mod_eq_of_lt h]

/-- The byte-reversed value fits in the same number of bytes. -/
theorem bswap_lt (n x : Nat) : bswap n x < 256 ^ n := by
  have h := of_be_lt (bytes_le n x) (bytes_le_lt n x)
  rw [bytes_le_length] at h
  exact h

/-- Signed to unsigned and back is the identity on the signed range. -/
theorem to_signed_to_unsigned (w : Nat) (hw : 0 < w) (v : Int)
    (h1 : -(2 ^ (w - 1) : Int) ≤ v) (h2 : v < 2 ^ (w - 1)) :
    to_signed w (to_unsigned w v) = v := by
  obtain ⟨k, rfl⟩ : ∃ k, w = k + 1 := ⟨w - 1, by omega⟩
  simp only [Nat.add_sub_cancel] at h1 h2
  unfold to_signed to_unsigned
  simp only [Nat.add_sub_cancel]
  have hp : (2 : Int) ^ (k + 1) = 2 * 2 ^ k := by ring
  have hpn : (2 : Nat) ^ (k + 1) = 2 * 2 ^ k := by ring
  have hk : (0 : Int) < 2 ^ k := by positivity
  have hcast : ((2 ^ k : Nat) : Int) = (2 : Int) ^ k := by push_cast; rfl
  by_cases hv : 0 ≤ v
  · have e : v % 2 ^ (k + 1) = v := Int.emod_eq_of_lt hv (by rw [hp]; omega)
    rw [e]
    have hlt : v.toNat < 2 ^ (k + 1) := by
      rw [hpn]
      have : (v.toNat : Int) = v := Int.toNat_of_nonneg hv
      omega
    rw [Nat.mod_eq_of_lt hlt]
    have hlt2 : v.toNat < 2 ^ k := by
      have : (v.toNat : Int) = v := Int.toNat_of_nonneg hv
      omega
    rw [if_pos hlt2]
    exact Int.toNat_of_nonneg hv
  · have hv' : v < 0 := by omega
    have e : v % 2 ^ (k + 1) = v + 2 ^ (k + 1) := by
      rw [← Int.add_emod_self]
      exact Int.emod_eq_of_lt (by rw [hp]; omega) (by omega)
    rw [e]
    have hnn : 0 ≤ v + 2 ^ (k + 1) := by rw [hp]; omega
    have hc : ((v + 2 ^ (k + 1)).toNat : Int) = v + 2 ^ (k + 1) := Int.toNat_of_nonneg hnn
    have hlt : (v + 2 ^ (k + 1)).toNat < 2 ^ (k + 1) := by
      have : ((2 ^ (k + 1) : Nat) : Int) = (2 : Int) ^ (k + 1) := by push_cast; rfl
      omega
    rw [Nat.mod_eq_of_lt hlt]
    have hge : ¬ (v + 2 ^ (k + 1)).toNat < 2 ^ k := by
      rw [hp] at hc
      omega
    rw [if_neg hge, hc]
    ring

/-- Unsigned to signed and back is the identity on the unsigned range. -/
theorem to_unsigned_to_signed (w : Nat) (x : Nat) (h : x < 2 ^ w) :
    to_unsigned w (to_signed w x) = x := by
  unfold to_signed to_unsigned
  rw [Nat.mod_eq_of_lt h]
  have hc : ((2 ^ w : Nat) : Int) = (2 : Int) ^ w := by push_cast; rfl
  have hx : ((x : Nat) : Int) < 2 ^ w := by rw [← hc]; exact_mod_cast h
  split
  · rw [Int.emod_eq_of_lt (by omega) hx]
    simp
  · rw [← Int.add_emod_self, sub_add_cancel, Int.emod_eq_of_lt (by omega) hx]
    simp


/-- C16: the conversion on read inverts the conversion on write at every width, on
little-endian and on big-endian hosts alike, negative values included.  For `v`
in the `int16_t` range, `(int16_t) ntohs(val)` of `val = (int16_t) htons(v)` is `v`
(get_int16 against set_int16 and append_int16); for `v` in the `int32_t` range the
same holds of `ntohl` and `htonl`; for every `int64_t` `v` the same holds of
`be64toh` applied on both sides. -/
theorem byte_order_read_inverts_write (little : Bool) :
    (∀ v : Int, INT16_MIN ≤ v → v ≤ INT16_MAX →
      to_signed 16 (ntohs little (to_unsigned 16
        (to_signed 16 (htons little (to_unsigned 16 v))))) = v) ∧
    (∀ v : Int, INT32_MIN ≤ v → v ≤ INT32_MAX →
      to_signed 32 (ntohl little (to_unsigned 32
        (to_signed 32 (htonl little (to_unsigned 32 v))))) = v) ∧
    (∀ v : Int, INT64_MIN ≤ v → v ≤ INT64_MAX →
      to_signed 64 (be64toh little (to_unsigned 64
        (to_signed 64 (be64toh little (to_unsigned 64 v))))) = v) := by
  have key : ∀ (n : Nat) (f : Nat → Nat),
      (∀ x, f x = if little then bswap n (x % 2 ^ (8 * n)) else x % 2 ^ (8 * n)) →
      0 < n → ∀ v : Int, -(2 ^ (8 * n - 1) : Int) ≤ v → v < 2 ^ (8 * n - 1) →
      to_signed (8 * n) (f (to_unsigned (8 * n) (to_signed (8 * n) (f (to_unsigned (8 * n) v)))))
        = v := by
    intro n f hf hn v h1 h2
    have hpow : (256 : Nat) ^ n = 2 ^ (8 * n) := by
      rw [pow_mul]
      norm_num
    have hu : to_unsigned (8 * n) v < 2 ^ (8 * n) := by
      unfold to_unsigned
      have hpos : (0 : Int) < 2 ^ (8 * n) := by positivity
      have h3 := Int.emod_lt_of_pos v hpos
      have h4 := Int.emod_nonneg v (ne_of_gt hpos)
      have hc : ((2 ^ (8 * n) : Nat) : Int) = (2 : Int) ^ (8 * n) := by push_cast; rfl
      omega
    have hfl : ∀ x, f x < 2 ^ (8 * n) := by
      intro x
      rw [hf]
      split
      · rw [← hpow]
        exact bswap_lt n _
      · exact Nat.mod_lt _ (by positivity)
    have hff : ∀ x, x < 2 ^ (8 * n) → f (f x) = x := by
      intro x hx
      rw [hf (f x), Nat.mod_eq_of_lt (hfl x), hf x, Nat.mod_eq_of_lt hx]
      split
      · exact bswap_bswap n x (by rw [hpow]; exact hx)
      · rfl
    rw [to_unsigned_to_signed _ _ (hfl _), hff _ hu]
    exact to_signed_to_unsigned _ (by omega) v h1 h2
  refine ⟨?_, ?_, ?_⟩
  · intro v h1 h2
    unfold INT16_MIN at h1
    unfold INT16_MAX at h2
    exact key 2 (htons little) (fun x => rfl) (by norm_num) v (by norm_num; omega)
      (by norm_num; omega)
  · intro v h1 h2
    unfold INT32_MIN at h1
    unfold INT32_MAX at h2
    exact key 4 (htonl little) (fun x => rfl) (by norm_num) v (by norm_num; omega)
      (by norm_num; omega)
  · intro v h1 h2
    unfold INT64_MIN at h1
    unfold INT64_MAX at h2
    exact key 8 (be64toh little) (fun x => rfl) (by norm_num) v (by norm_num; omega)
      (by norm_num; omega)

/-- Witness of C16 on a little-endian host: -2 comes back at every width, and 258
goes out as 513 at 16 bits. -/
theorem byte_order_read_inverts_write_witness :
    to_signed 16 (htons true (to_unsigned 16 258)) = 513 ∧
    to_signed 16 (ntohs true (to_unsigned 16
      (to_signed 16 (htons true (to_unsigned 16 (-2)))))) = -2 ∧
    to_signed 32 (ntohl true (to_unsigned 32
      (to_signed 32 (htonl true (to_unsigned 32 (-2)))))) = -2 ∧
    to_signed 64 (be64toh true (to_unsigned 64
      (to_signed 64 (be64toh true (to_unsigned 64 (-2)))))) = -2 :=
  have h := byte_order_read_inverts_write true
  ⟨by decide, h.1 (-2) (by decide) (by decide), h.2.1 (-2) (by decide) (by decide),
    h.2.2 (-2) (by decide) (by decide)⟩

/-! ### Results -/

/-- A call that returns has logged itself, and nothing else. -/
theorem call_int_calls {σ : Type} (env : Env σ) (f : FnPtr) (args : List Arg)
    (s s1 : State σ) (rc : Int) (h : call_int env f args s = .ok (rc, s1)) :
    s1.calls = s.calls ++ [(f, args)] := by
  unfold call_int at h
  by_cases hf : f = 0
  · simp [hf] at h
  · simp only [hf, if_false] at h
    injection h with h
    injection h with _ h
    rw [← h]

/-- A call on another handle does not count. -/
theorem calls_on_append_other (v u : Ptr) (f : FnPtr) (l : List (FnPtr × List Arg))
    (h : u ≠ v) : calls_on v (l ++ [(f, [Arg.ptr u])]) = calls_on v l := by
  simp [calls_on, List.countP_append, List.countP_cons, h]

/-- A call on the handle counts once. -/
theorem calls_on_append_self (v : Ptr) (f : FnPtr) (l : List (FnPtr × List Arg)) :
    calls_on v (l ++ [(f, [Arg.ptr v])]) = calls_on v l + 1 := by
  simp [calls_on, List.countP_append, List.countP_cons]

/-- Destroying the handle `u` makes no call on another handle `v`. -/
theorem as_val_free_calls_on {σ : Type} (env : Env σ) (u v : Ptr) (s s1 : State σ)
    (rc : Int) (h : as_val_free env u s = .ok (rc, s1)) (hne : u ≠ v) :
    calls_on v s1.calls = calls_on v s.calls := by
  have same : ∀ (t : State σ) (c : Int), (Except.ok (c, t) : Except Fault (Int × State σ))
      = .ok (rc, s1) → calls_on v s1.calls = calls_on v t.calls := by
    intro t c e
    injection e with e
    injection e with _ e
    rw [e]
  have viaCall : ∀ f, call_int env f [.ptr u] s = .ok (rc, s1) →
      calls_on v s1.calls = calls_on v s.calls := by
    intro f e
    rw [call_int_calls env f _ s s1 rc e, calls_on_append_other v u f _ hne]
  unfold as_val_free at h
  by_cases h0 : u = 0
  · simp only [h0, if_true] at h
    exact same s 1 h
  · simp only [h0, if_false] at h
    cases hx : load_val s.mem u with
    | error e => simp [hx] at h
    | ok x =>
      simp only [hx] at h
      by_cases hf : x.free = 0
      · simp only [hf, ne_eq, not_true_eq_false, if_false] at h
        exact same s 1 h
      · simp only [hf, ne_eq, not_false_eq_true, if_true] at h
        unfold call_val_free at h
        by_cases ha : x.free = env.addr_as_rec_freeval
        · rw [if_pos ⟨hf, ha⟩] at h
          unfold as_rec_freeval at h
          cases ht : as_val_type s.mem u with
          | error e => simp [ht] at h
          | ok t =>
            simp only [ht] at h
            by_cases hr : t = AS_REC
            · simp only [hr, if_true] at h
              unfold as_rec_free at h
              cases h1 : load_rec s.mem u with
              | error e => simp [h1] at h
              | ok y =>
                simp only [h1] at h
                cases h2 : load_rec_hooks s.mem y.hooks with
                | error e => simp [h2] at h
                | ok k =>
                  simp only [h2] at h
                  exact viaCall _ h
            · simp only [hr, if_false] at h
              exact same s 1 h
        · rw [if_neg (fun c => ha c.2)] at h
          exact viaCall _ h

/-- C11: the state of a result and the value it carries stay consistent under
conversion.  From any result `r` whose carried value can be released,
`as_result_tofailure(r, v)` leaves `is_success` false and `value` equal to `v`,
without a call on `v` when `v` is not the value carried before; a further
`as_result_tosuccess(r, w)` leaves `is_success` true and `value` equal to `w`, its
whole effect on the state being one `as_val_free` of `v`, which for a `v` with a
destroy hook installed is exactly one call of that hook on `v`. -/
theorem as_result_conversion_consistent {σ : Type} (env : Env σ) (r : as_result)
    (v w : Ptr) (s s1 : State σ) (rc : Int)
    (hold : as_val_free env r.value s = .ok (rc, s1)) :
    as_result_tofailure env r v s = .ok (0, { is_success := false, value := v }, s1) ∧
    (r.value ≠ v → calls_on v s1.calls = calls_on v s.calls) ∧
    (∀ rc2 s2, as_val_free env v s1 = .ok (rc2, s2) →
      as_result_tosuccess env { is_success := false, value := v } w s1
        = .ok (0, { is_success := true, value := w }, s2)) ∧
    (∀ x, load_val s1.mem v = .ok x → x.free ≠ NULL → x.free ≠ env.addr_as_rec_freeval →
      ∃ s2, as_result_tosuccess env { is_success := false, value := v } w s1
          = .ok (0, { is_success := true, value := w }, s2) ∧
        s2.calls = s1.calls ++ [(x.free, [.ptr v])] ∧
        calls_on v s2.calls = calls_on v s1.calls + 1) := by
  refine ⟨?_, ?_, ?_, ?_⟩
  · simp [as_result_tofailure, hold]
  · exact fun hne => as_val_free_calls_on env r.value v s s1 rc hold hne
  · intro rc2 s2 h2
    simp [as_result_tosuccess, h2]
  · intro x hx hf ha
    have hv0 : ¬ v = 0 := by
      intro h0
      simp [load_val, h0] at hx
    have hf0 : ¬ x.free = 0 := hf
    have hfree : as_val_free env v s1
        = .ok ((env.int_fn x.free [.ptr v] s1.mem s1.ext).1,
            { mem := (env.int_fn x.free [.ptr v] s1.mem s1.ext).2.1,
              ext := (env.int_fn x.free [.ptr v] s1.mem s1.ext).2.2,
              calls := s1.calls ++ [(x.free, [.ptr v])] }) := by
      simp [as_val_free, call_val_free, call_int, hv0, hx, hf0, ha]
    refine ⟨{ mem := (env.int_fn x.free [.ptr v] s1.mem s1.ext).2.1,
              ext := (env.int_fn x.free [.ptr v] s1.mem s1.ext).2.2,
              calls := s1.calls ++ [(x.free, [.ptr v])] }, ?_, rfl, ?_⟩
    · simp [as_result_tosuccess, hfree]
    · exact calls_on_append_self v x.free s1.calls

/-- Witness of C11 in the concrete world: a fresh result carrying nothing is turned
into a failure carrying the value at 24, then into a success carrying the value
at 16; the destroy hook 301 of the value at 24 is called exactly once. -/
theorem as_result_conversion_consistent_witness :
    as_result_tofailure demoEnv { is_success := false, value := NULL } 24 demoState
      = .ok (0, { is_success := false, value := 24 }, demoState) ∧
    ∃ s2, as_result_tosuccess demoEnv { is_success := false, value := 24 } 16 demoState
        = .ok (0, { is_success := true, value := 16 }, s2) ∧
      s2.calls = demoState.calls ++ [(301, [.ptr 24])] ∧
      calls_on 24 s2.calls = calls_on 24 demoState.calls + 1 :=
  have h := as_result_conversion_consistent demoEnv { is_success := false, value := NULL }
    24 16 demoState demoState 1 rfl
  ⟨h.1, h.2.2.2 fullVal rfl (by decide) (by decide)⟩

/-! ### The bytes bindings -/

/-- The getter never returns a value: with two or more arguments it returns at once,
and with fewer the index defaults to 0 and is rejected. -/
theorem mod_lua_bytes_get_byte_results {β : Type} (lib : BytesLib β) (little : Bool)
    (args : List (LuaVal β)) (out : Ret β)
    (h : mod_lua_bytes_get_byte lib little args = .ok out) :
    out.results = [] ∧ out.log = [] := by
  unfold mod_lua_bytes_get_byte at h
  by_cases hlen : args.length ≥ 2
  · simp only [hlen, if_true] at h
    injection h with h
    subst h
    exact ⟨rfl, rfl⟩
  · simp only [hlen, if_false] at h
    have hi : luaL_optinteger args 2 0 = .ok 0 := by
      have hnone : args[1]? = none := by
        apply List.getElem?_eq_none
        omega
      simp [luaL_optinteger, hnone]
    cases hb : mod_lua_checkbytes args 1 with
    | error e => simp [hb, bind, Except.bind] at h
    | ok b =>
      simp only [hb, hi, bind, Except.bind] at h
      cases b with
      | none =>
        injection h with h
        subst h
        exact ⟨rfl, rfl⟩
      | some b =>
        simp only [show ((0 : Int) < 1 ∨ (0 : Int) > UINT32_MAX) from Or.inl (by decide),
          if_true] at h
        injection h with h
        subst h
        exact ⟨rfl, rfl⟩

/-- On a little-endian host the byte-order call applied to a byte leaves 0 in a
`uint8_t`, on a big-endian host it leaves the byte. -/
theorem htons_of_byte (x : Nat) (h : x < 256) :
    htons true x % 2 ^ 8 = 0 ∧ ntohs true x % 2 ^ 8 = 0 ∧
    htons false x % 2 ^ 8 = x ∧ ntohs false x % 2 ^ 8 = x := by
  have h16 : x % 2 ^ 16 = x := Nat.mod_eq_of_lt (by omega)
  have hs : bswap 2 x = x * 256 := by
    simp only [bswap, bytes_le, of_be, List.foldl]
    omega
  simp only [htons, ntohs, h16, hs, if_true]
  refine ⟨by omega, by omega, ?_, ?_⟩ <;> simp <;> omega

/-- C12, evaluated on the code: `get_byte(b, 1)` on the bytes object holding the byte 7
at offset 0 returns no result, on either host, and does not read the object: the
argument test `lua_gettop(l) >= 2` returns at once for two arguments.  The
conversion behind it, `(uint8_t) ntohs(val)`, would give 0 instead of 7 on a
little-endian host. -/
theorem mod_lua_bytes_get_byte_no_result :
    demoLib.as_bytes_get_byte demoBytes 0 = (1, 7) ∧
    mod_lua_bytes_get_byte demoLib true [.bytes (some demoBytes), .integer 1]
      = .ok { results := [], obj := some demoBytes, log := [] } ∧
    mod_lua_bytes_get_byte demoLib false [.bytes (some demoBytes), .integer 1]
      = .ok { results := [], obj := some demoBytes, log := [] } ∧
    mod_lua_bytes_get_byte demoLib true [.bytes (some demoBytes)]
      = .ok { results := [], obj := some demoBytes, log := [] } ∧
    ntohs true 7 % 2 ^ 8 = 0 :=
  ⟨rfl, rfl, rfl, rfl, (htons_of_byte 7 (by decide)).2.1⟩

/-- The type getter never returns a value: with an argument it returns at once, and
without one the argument check raises an error. -/
theorem mod_lua_bytes_get_type_results {β : Type} (lib : BytesLib β)
    (args : List (LuaVal β)) :
    (args.length ≥ 1 →
      mod_lua_bytes_get_type lib args = .ok { results := [], obj := arg_obj args, log := [] }) ∧
    (args.length = 0 → mod_lua_bytes_get_type lib args = .error (.bad_argument 1)) := by
  constructor
  · intro h
    simp [mod_lua_bytes_get_type, h]
  · intro h
    have hnil : args = [] := List.length_eq_zero.mp h
    subst hnil
    rfl

/-- C13, evaluated on the code: `get_type(b)` on the non-null bytes object of type 4
returns no result and does not call `as_bytes_get_type`: the argument test
`lua_gettop(l) >= 1` returns at once for one argument. -/
theorem mod_lua_bytes_get_type_no_result :
    demoLib.as_bytes_get_type demoBytes = 4 ∧
    mod_lua_bytes_get_type demoLib [.bytes (some demoBytes)]
      = .ok { results := [], obj := some demoBytes, log := [] } :=
  ⟨rfl, rfl⟩

/-- C14, evaluated on the code: on a little-endian host `append_byte(b, 1)` hands the
byte 0 to `as_bytes_append_byte` and `set_byte(b, 3, 200)` hands the byte 0 to
`as_bytes_set_byte`, after a successful `as_bytes_ensure`; on a big-endian host
the bytes handed over are 1 and 200. -/
theorem mod_lua_bytes_append_byte_loses_value :
    (mod_lua_bytes_append_byte demoLib true [.bytes (some demoBytes), .integer 1]).toOption.map
        (fun out => (out.results, out.log))
      = some ([.boolean true], [.ensure 2 true, .append_byte 0]) ∧
    (mod_lua_bytes_set_byte demoLib true
          [.bytes (some demoBytes), .integer 3, .integer 200]).toOption.map
        (fun out => (out.results, out.log))
      = some ([.boolean true], [.ensure 3 true, .set_byte 2 0]) ∧
    (mod_lua_bytes_append_byte demoLib false [.bytes (some demoBytes), .integer 1]).toOption.map
        (fun out => (out.results, out.log))
      = some ([.boolean true], [.ensure 2 true, .append_byte 1]) ∧
    (mod_lua_bytes_set_byte demoLib false
          [.bytes (some demoBytes), .integer 3, .integer 200]).toOption.map
        (fun out => (out.results, out.log))
      = some ([.boolean true], [.ensure 3 true, .set_byte 2 200]) :=
  ⟨rfl, rfl, rfl, rfl⟩

/-- C17, evaluated on the code: at the largest accepted index the capacity handed to
`as_bytes_ensure` wraps to 0.  `set_int16(b, 4294967295, 0)` asks for capacity 0
where (i - 1) + 2 is 4294967296, and then writes at offset 4294967294; the same
happens to `set_int32` at index 4294967293 and to `set_int64` at index
4294967289. -/
theorem mod_lua_bytes_set_capacity_wraps :
    (mod_lua_bytes_set_int16 demoLib true
          [.bytes (some demoBytes), .integer 4294967295, .integer 0]).toOption.map
        (fun out => out.log)
      = some [.ensure 0 true, .set_int16 4294967294 0] ∧
    ((4294967295 : Int) - 1) + 2 = 4294967296 ∧
    (mod_lua_bytes_set_int32 demoLib true
          [.bytes (some demoBytes), .integer 4294967293, .integer 0]).toOption.map
        (fun out => out.log)
      = some [.ensure 0 true, .set_int32 4294967292 0] ∧
    ((4294967293 : Int) - 1) + 4 = 4294967296 ∧
    (mod_lua_bytes_set_int64 demoLib true
          [.bytes (some demoBytes), .integer 4294967289, .integer 0]).toOption.map
        (fun out => out.log)
      = some [.ensure 0 true, .set_int64 4294967288 0] ∧
    ((4294967289 : Int) - 1) + 8 = 4294967296 :=
  ⟨rfl, by decide, rfl, by decide, rfl, by decide⟩

/-- The capacity computed in `uint32_t` from an accepted index is the `uint32_t` value
of (i - 1) + w, and the offset is i - 1; the capacity equals (i - 1) + w itself
exactly when that sum fits in 32 bits, which it always does for w = 1. -/
theorem set_capacity_request (i : Int) (w : Nat) (h1 : 1 ≤ i) (h2 : i ≤ UINT32_MAX)
    (hw : w < 2 ^ 32) :
    to_unsigned 32 (i - 1) = (i - 1).toNat ∧
    (to_unsigned 32 (i - 1) + w) % 2 ^ 32 = to_unsigned 32 ((i - 1) + w) ∧
    ((i - 1) + w ≤ UINT32_MAX →
      (((to_unsigned 32 (i - 1) + w) % 2 ^ 32 : Nat) : Int) = (i - 1) + w) ∧
    (w = 1 → (((to_unsigned 32 (i - 1) + w) % 2 ^ 32 : Nat) : Int) = (i - 1) + w) := by
  unfold UINT32_MAX at h2
  unfold to_unsigned UINT32_MAX
  norm_num at hw ⊢
  refine ⟨?_, ?_, ?_, ?_⟩ <;> omega

/-- The body of `set_int16` on a non-null object and two integers. -/
theorem mod_lua_bytes_set_int16_eq {β : Type} (lib : BytesLib β) (little : Bool) (b : β)
    (i v : Int) :
    mod_lua_bytes_set_int16 lib little [.bytes (some b), .integer i, .integer v]
      = if i < 1 ∨ i > UINT32_MAX ∨ v < INT16_MIN ∨ v > INT16_MAX then
          .ok { results := [.boolean false], obj := some b, log := [] }
        else if (lib.as_bytes_ensure b ((to_unsigned 32 (i - 1) + 2) % 2 ^ 32) true).1 = true then
          .ok { results := [.boolean (lib.as_bytes_set_int16
                    (lib.as_bytes_ensure b ((to_unsigned 32 (i - 1) + 2) % 2 ^ 32) true).2
                    (to_unsigned 32 (i - 1))
                    (to_signed 16 (htons little (to_unsigned 16 v)))).1],
                obj := some (lib.as_bytes_set_int16
                    (lib.as_bytes_ensure b ((to_unsigned 32 (i - 1) + 2) % 2 ^ 32) true).2
                    (to_unsigned 32 (i - 1))
                    (to_signed 16 (htons little (to_unsigned 16 v)))).2,
                log := [.ensure ((to_unsigned 32 (i - 1) + 2) % 2 ^ 32) true,
                  .set_int16 (to_unsigned 32 (i - 1))
                    (to_signed 16 (htons little (to_unsigned 16 v)))] }
        else
          .ok { results := [.boolean false],
                obj := some (lib.as_bytes_ensure b
                  ((to_unsigned 32 (i - 1) + 2) % 2 ^ 32) true).2,
                log := [.ensure ((to_unsigned 32 (i - 1) + 2) % 2 ^ 32) true] } :=
  rfl

/-- C15: `set_int16` returns false on error and leaves the object untouched.  With an
argument count other than 3, with a null `b`, with an index below 1 or above
`UINT32_MAX`, or with a value outside the `int16_t` range it returns the single
result false and calls neither `as_bytes_ensure` nor `as_bytes_set_int16`.  In
every other case it calls `as_bytes_ensure(b, (i-1)+2, true)`, the capacity being
passed as a `uint32_t`, and, only if that succeeds, writes at offset i - 1; its
single result is true exactly when both succeed. -/
theorem mod_lua_bytes_set_int16_contract {β : Type} (lib : BytesLib β) (little : Bool) :
    (∀ args : List (LuaVal β), args.length ≠ 3 →
      mod_lua_bytes_set_int16 lib little args
        = .ok { results := [.boolean false], obj := arg_obj args, log := [] }) ∧
    (∀ i v : Int,
      mod_lua_bytes_set_int16 lib little [.bytes none, .integer i, .integer v]
        = .ok { results := [.boolean false], obj := none, log := [] }) ∧
    (∀ (b : β) (i v : Int), (i < 1 ∨ i > UINT32_MAX ∨ v < INT16_MIN ∨ v > INT16_MAX) →
      mod_lua_bytes_set_int16 lib little [.bytes (some b), .integer i, .integer v]
        = .ok { results := [.boolean false], obj := some b, log := [] }) ∧
    (∀ (b : β) (i v : Int), 1 ≤ i → i ≤ UINT32_MAX → INT16_MIN ≤ v → v ≤ INT16_MAX →
      (lib.as_bytes_ensure b (to_unsigned 32 ((i - 1) + 2)) true).1 = true →
      mod_lua_bytes_set_int16 lib little [.bytes (some b), .integer i, .integer v]
        = .ok { results := [.boolean (lib.as_bytes_set_int16
                    (lib.as_bytes_ensure b (to_unsigned 32 ((i - 1) + 2)) true).2
                    (i - 1).toNat (to_signed 16 (htons little (to_unsigned 16 v)))).1],
                obj := some (lib.as_bytes_set_int16
                    (lib.as_bytes_ensure b (to_unsigned 32 ((i - 1) + 2)) true).2
                    (i - 1).toNat (to_signed 16 (htons little (to_unsigned 16 v)))).2,
                log := [.ensure (to_unsigned 32 ((i - 1) + 2)) true,
                  .set_int16 (i - 1).toNat
                    (to_signed 16 (htons little (to_unsigned 16 v)))] }) ∧
    (∀ (b : β) (i v : Int), 1 ≤ i → i ≤ UINT32_MAX → INT16_MIN ≤ v → v ≤ INT16_MAX →
      (lib.as_bytes_ensure b (to_unsigned 32 ((i - 1) + 2)) true).1 = false →
      mod_lua_bytes_set_int16 lib little [.bytes (some b), .integer i, .integer v]
        = .ok { results := [.boolean false],
                obj := some (lib.as_bytes_ensure b (to_unsigned 32 ((i - 1) + 2)) true).2,
                log := [.ensure (to_unsigned 32 ((i - 1) + 2)) true] }) := by
  have accepted : ∀ i v : Int, 1 ≤ i → i ≤ UINT32_MAX → INT16_MIN ≤ v → v ≤ INT16_MAX →
      ¬ (i < 1 ∨ i > UINT32_MAX ∨ v < INT16_MIN ∨ v > INT16_MAX) := by
    intro i v a b c d
    omega
  refine ⟨?_, ?_, ?_, ?_, ?_⟩
  · intro args h
    simp [mod_lua_bytes_set_int16, h]
  · intro i v
    rfl
  · intro b i v h
    rw [mod_lua_bytes_set_int16_eq, if_pos h]
  · intro b i v h1 h2 h3 h4 he
    obtain ⟨p1, p2, -, -⟩ := set_capacity_request i 2 h1 h2 (by norm_num)
    have hcap : (to_unsigned 32 (i - 1) + 2) % 2 ^ 32 = to_unsigned 32 ((i - 1) + 2) := by
      simpa using p2
    rw [mod_lua_bytes_set_int16_eq, if_neg (accepted i v h1 h2 h3 h4), hcap, if_pos he, p1]
  · intro b i v h1 h2 h3 h4 he
    obtain ⟨p1, p2, -, -⟩ := set_capacity_request i 2 h1 h2 (by norm_num)
    have hcap : (to_unsigned 32 (i - 1) + 2) % 2 ^ 32 = to_unsigned 32 ((i - 1) + 2) := by
      simpa using p2
    have he2 : ¬ (lib.as_bytes_ensure b (to_unsigned 32 ((i - 1) + 2)) true).1 = true := by
      rw [he]
      decide
    rw [mod_lua_bytes_set_int16_eq, if_neg (accepted i v h1 h2 h3 h4), hcap, if_neg he2]

/-- Witness of C15 on the concrete bytes library, little-endian host: index 0 is
rejected with the object untouched and no library call; index 2 with value -2
ensures capacity 3 and writes at offset 1. -/
theorem mod_lua_bytes_set_int16_contract_witness :
    mod_lua_bytes_set_int16 demoLib true [.bytes (some demoBytes), .integer 0, .integer (-2)]
      = .ok { results := [.boolean false], obj := some demoBytes, log := [] } ∧
    mod_lua_bytes_set_int16 demoLib true [.bytes (some demoBytes), .integer 2, .integer (-2)]
      = .ok { results := [.boolean true],
              obj := some { value := [7, 255, 254], capacity := 8, type := 4 },
              log := [.ensure 3 true, .set_int16 1 (-257)] } :=
  have h := mod_lua_bytes_set_int16_contract demoLib true
  ⟨h.2.2.1 demoBytes 0 (-2) (Or.inl (by decide)),
    h.2.2.2.1 demoBytes 2 (-2) (by decide) (by decide) (by decide) (by decide) rfl⟩

end ModLua
